import Mathlib

/-!
Verification development for the Shopify automation tools repository.

The definitions below are a shallow embedding of the Python sources:

* `full_sales_analysis.py`  — `FullSalesAnalyzer` (categorize_product,
  extract_show_name, fetch_all_orders, extract_all_sales, generate_summary);
* `program_book_sales_analysis.py` — `ProgramBookAnalyzer` (is_program_book,
  extract_show_name, fetch_all_orders, extract_program_book_sales);
* `shopify_order_fetcher.py` — `ShopifyOrderFetcher` (fetch_orders,
  display_summary);
* `amplifier_client.py` / `printful_client.py` — `_request`, `get_all_items`,
  `get_all_products`.

Conventions used throughout:

* Python floats that hold money are modelled as `ℚ` (all amounts exercised
  here are exactly representable);
* a JSON field that may be absent or `null` is an `Option`; Python's
  `d.get(k) or default` idiom (which also replaces falsy values such as the
  empty string or `0`) is modelled by `pyOr` / `Option.getD` as appropriate;
* Python exceptions that escape a function are modelled with `Except`;
* HTTP traffic is modelled by the finite sequence of responses the server
  produces, one per issued request.
-/

namespace Shopify

/-- Decidable equality for `Except` results, used to evaluate closed
statements about the fallible operations modelled below. -/
instance instDecEqExcept {ε α : Type} [DecidableEq ε] [DecidableEq α] :
    DecidableEq (Except ε α) := fun a b =>
  match a, b with
  | .ok x, .ok y =>
      if h : x = y then .isTrue (by rw [h]) else .isFalse (by simp [h])
  | .error x, .error y =>
      if h : x = y then .isTrue (by rw [h]) else .isFalse (by simp [h])
  | .ok _, .error _ => .isFalse (by simp)
  | .error _, .ok _ => .isFalse (by simp)

/-- Python `x.get(k) or default` for string fields: `None` and `""` both fall
back to the default. -/
def pyOr (x : Option String) (d : String) : String :=
  match x with
  | none => d
  | some s => if s = "" then d else s

/-- Python `str.lower()` (ASCII; all inputs exercised here are ASCII). -/
def lowerStr (s : String) : String := String.mk (s.toList.map Char.toLower)

/-- Python `str.upper()` (ASCII). -/
def upperStr (s : String) : String := String.mk (s.toList.map Char.toUpper)

/-- Python `needle in hay` substring test. -/
def containsSub (hay needle : String) : Bool :=
  let h := hay.toList
  let n := needle.toList
  (List.range (h.length + 1)).any (fun i => n.isPrefixOf (h.drop i))

/-- Python `\s` whitespace class (ASCII part). -/
def isPySpace (c : Char) : Bool :=
  c = ' ' || c = '\t' || c = '\n' || c = '\r' || c = '\x0b' || c = '\x0c'

/-- Python regex `\w` word-character class (ASCII part; the titles and SKUs
exercised here are ASCII). -/
def isWordChar (c : Char) : Bool :=
  c.isAlphanum || c = '_'

/-- Value of a nonempty string of decimal digits, as Python `int` reads it
(leading zeros allowed). -/
def digitsToNat (ds : List Char) : Nat :=
  ds.foldl (fun a c => 10 * a + (c.toNat - '0'.toNat)) 0

/-!
A tiny regex engine covering exactly the constructs appearing in the
patterns of `CATEGORY_RULES` and the show detectors: literal characters,
the classes `\s`, `\d`, `\w`-based word boundaries `\b`, `.` (which in
Python does not match a newline), alternation, concatenation, the anchors
`^` and `$`, and the quantifiers `*`, `+`, `?` applied to a single
character class.  `reSearch` decides exactly whether Python's `re.search`
would find a match (the source code only ever uses the result's truthiness
for these patterns; the two patterns whose capture group is read are
modelled separately below).
-/

/-- A single-character class. -/
inductive CCls where
  | lit (c : Char)
  | digit
  | space
  | anyc
  deriving DecidableEq

/-- Does a character belong to a class?  `.anyc` is Python `.`, which does
not match `\n`. -/
def CCls.mem : CCls → Char → Bool
  | .lit c, d => c = d
  | .digit, d => d.isDigit
  | .space, d => isPySpace d
  | .anyc, d => d ≠ '\n'

/-- Regex syntax: star/plus/opt only ever wrap a single character class,
which is all the source's patterns need. -/
inductive Re where
  | eps
  | atom (c : CCls)
  | star (c : CCls)
  | plus (c : CCls)
  | opt (c : CCls)
  | seq (a b : Re)
  | alt (a b : Re)
  | bos
  | eos
  | wb
  deriving DecidableEq

/-- Length of the maximal run of class-`c` characters starting at index `i`. -/
def runLen (c : CCls) (s : List Char) (i : Nat) : Nat :=
  ((s.drop i).takeWhile c.mem).length

/-- Python `\b`: positions where exactly one neighbour is a word character
(out-of-range counts as non-word). -/
def isBoundary (s : List Char) (i : Nat) : Bool :=
  let before := match s.get? (i - 1) with
    | some c => if i = 0 then false else isWordChar c
    | none => false
  let here := match s.get? i with
    | some c => isWordChar c
    | none => false
  before ≠ here

/-- All end positions of a match of `r` starting at index `i` of `s`.
Because quantifiers only wrap single classes, the set of end positions of a
starred class is the full interval up to its maximal run, so no
backtracking search is needed. -/
def mtch (s : List Char) : Re → Nat → List Nat
  | .eps, i => [i]
  | .atom c, i =>
      match s.get? i with
      | some ch => if c.mem ch then [i + 1] else []
      | none => []
  | .star c, i => (List.range (runLen c s i + 1)).map (i + ·)
  | .plus c, i => (List.range (runLen c s i)).map (fun k => i + k + 1)
  | .opt c, i =>
      match s.get? i with
      | some ch => if c.mem ch then [i, i + 1] else [i]
      | none => [i]
  | .seq a b, i => (mtch s a i).flatMap (mtch s b)
  | .alt a b, i => mtch s a i ++ mtch s b i
  | .bos, i => if i = 0 then [i] else []
  | .eos, i => if i = s.length then [i] else []
  | .wb, i => if isBoundary s i then [i] else []

/-- Truthiness of Python `re.search(r, str)`: a match exists starting at
some position. -/
def reSearch (r : Re) (str : String) : Bool :=
  let s := str.toList
  (List.range (s.length + 1)).any (fun i => !(mtch s r i).isEmpty)

/-- Concatenation of a list of regexes. -/
def rcat (l : List Re) : Re := l.foldr Re.seq Re.eps

/-- Alternation of a list of regexes (none matches nothing, as in an empty
alternative set, which does not occur in the sources). -/
def ralt : List Re → Re
  | [] => Re.eps
  | [r] => r
  | r :: rest => Re.alt r (ralt rest)

/-- A literal string as a regex. -/
def rlit (t : String) : Re := rcat (t.toList.map (fun c => Re.atom (.lit c)))

/-!
`FullSalesAnalyzer.CATEGORY_RULES` (full_sales_analysis.py, lines 40-81).
Each rule is (pattern, category, match-against-sku flag); the flag is the
optional third tuple element of the source, `False` meaning the default
`'title'` field.
-/

/-- The ordered category rules of `FullSalesAnalyzer`. -/
def CATEGORY_RULES : List (Re × String × Bool) :=
  [ (ralt [rcat [rlit "program", .star .space, rlit "book"],
           rcat [rlit "programme", .star .space, rlit "book"],
           rcat [rlit "souvenir", .star .space, rlit "program"]],
     "Program Books", false),
    (ralt [rcat [rlit "BOOK", .eos], rcat [rlit "SOUV", .eos]],
     "Program Books", true),
    (rcat [.bos, rlit "POLARBOOK"], "Program Books", true),
    (ralt [rcat [rlit "t", .opt (.lit '-'), rlit "shirt"],
           rcat [rlit "tee", .wb], rlit "shirt"],
     "Apparel - T-Shirts", false),
    (ralt [rlit "hoodie", rlit "sweatshirt", rlit "sweater", rlit "pullover"],
     "Apparel - Hoodies/Sweatshirts", false),
    (ralt [rlit "jacket", rlit "coat", rlit "outerwear"],
     "Apparel - Outerwear", false),
    (ralt [rlit "hat", rlit "cap", rlit "beanie"], "Apparel - Headwear", false),
    (ralt [rcat [rlit "sock", .opt (.lit 's')], rcat [rlit "sock", .wb]],
     "Apparel - Socks", false),
    (ralt [rlit "poster", rlit "print",
           rcat [rlit "art", .star .space, rlit "print"]],
     "Posters & Prints", false),
    (ralt [rlit "mug", rlit "cup", rlit "tumbler", rlit "drinkware"],
     "Drinkware", false),
    (ralt [rlit "pin", rcat [rlit "enamel", .star .space, rlit "pin"],
           rlit "lapel"],
     "Pins & Badges", false),
    (ralt [rlit "keychain", rcat [rlit "key", .star .space, rlit "chain"],
           rlit "lanyard"],
     "Keychains & Lanyards", false),
    (ralt [rlit "bag", rlit "tote", rlit "backpack", rlit "pouch"],
     "Bags & Totes", false),
    (ralt [rlit "sticker", rlit "decal"], "Stickers", false),
    (rlit "magnet", "Magnets", false),
    (ralt [rlit "patch", rcat [rlit "iron", .atom .anyc, rlit "on"]],
     "Patches", false),
    (ralt [rlit "wand", rlit "replica"], "Collectibles & Replicas", false),
    (rlit "ornament", "Ornaments", false),
    (ralt [rlit "figure", rlit "figurine", rlit "statue"],
     "Figures & Statues", false),
    (ralt [rlit "vinyl", rlit "record", rcat [rlit "lp", .wb], rlit "album"],
     "Vinyl & Music", false),
    (ralt [rcat [rlit "cd", .wb], rlit "soundtrack"], "CDs & Soundtracks", false),
    (ralt [rlit "dvd", rcat [rlit "blu", .opt (.lit '-'), rlit "ray"],
           rlit "video"],
     "DVDs & Video", false),
    (ralt [rlit "ticket", rlit "admission", rlit "vip",
           rcat [rlit "meet", .star .anyc, rlit "greet"],
           rcat [rlit "photo", .star .space, rlit "op"]],
     "Tickets & Experiences", false),
    (ralt [rlit "bundle", rlit "pack", rlit "set", rlit "collection",
           rlit "combo"],
     "Bundles & Sets", false),
    (ralt [rcat [rlit "gift", .star .space, rlit "card"],
           rcat [rlit "e", .opt (.lit '-'), rlit "gift"], rlit "voucher"],
     "Gift Cards", false) ]

/-- First matching rule in an ordered rule list, given the lowercased title
and uppercased SKU (the per-rule field selection of the source loop). -/
def firstRuleMatch (rules : List (Re × String × Bool)) (tl su : String) : Option String :=
  match rules with
  | [] => none
  | (pat, cat, isSku) :: rest =>
      if (if isSku then reSearch pat su else reSearch pat tl) then some cat
      else firstRuleMatch rest tl su

/-- `FullSalesAnalyzer.categorize_product` (full_sales_analysis.py,
lines 93-110). -/
def categorizeProduct (title sku : String) : String :=
  let title_lower := lowerStr (pyOr title "")
  let sku_upper := upperStr (pyOr sku "")
  (firstRuleMatch CATEGORY_RULES title_lower sku_upper).getD "Other"

/-!
The two capture-group regexes, modelled directly.

`re.search(r'HP(\d+)', sku_upper)` scans left to right for `HP` followed by
at least one digit; the greedy `\d+` captures the whole maximal digit run,
so `HP10` yields `10`, never `1`.
-/

/-- `re.search(r'HP(\d+)', s)`: the captured number, if any. -/
def searchHPNum : List Char → Option Nat
  | [] => none
  | c :: rest =>
      if c = 'H' then
        match rest with
        | 'P' :: r2 =>
            let ds := r2.takeWhile Char.isDigit
            if ds.isEmpty then searchHPNum rest else some (digitsToNat ds)
        | _ => searchHPNum rest
      else searchHPNum rest

/-- Match of `(?:film\s*#?|#)(\d+)\b` anchored at the head of `l`
(`l` is a suffix of the full lowercased title).  The greedy `\d+` consumes
the maximal digit run; shortening it under backtracking can never satisfy
the following `\b` because the next character would again be a digit, so
the word-boundary check reduces to: the character after the run, if any, is
not a word character. -/
def filmAt (l : List Char) : Option Nat :=
  match l with
  | 'f' :: 'i' :: 'l' :: 'm' :: r =>
      let r1 := r.dropWhile isPySpace
      let r2 := if r1.head? = some '#' then r1.tail else r1
      let ds := r2.takeWhile Char.isDigit
      if ds.isEmpty then none
      else
        match (r2.drop ds.length).head? with
        | some c => if isWordChar c then none else some (digitsToNat ds)
        | none => some (digitsToNat ds)
  | '#' :: r =>
      let ds := r.takeWhile Char.isDigit
      if ds.isEmpty then none
      else
        match (r.drop ds.length).head? with
        | some c => if isWordChar c then none else some (digitsToNat ds)
        | none => some (digitsToNat ds)
  | _ => none

/-- `re.search(r'(?:film\s*#?|#)(\d+)\b', t)`: leftmost match wins. -/
def filmSearch : List Char → Option Nat
  | [] => none
  | c :: rest =>
      match filmAt (c :: rest) with
      | some n => some n
      | none => filmSearch rest

/-- The `1 <= film_num <= 8` range guard applied to an optional extracted
number: the source falls through (rather than returning) when the extracted
number is out of the lookup table's range. -/
def hpInRange (o : Option Nat) : Option Nat :=
  match o with
  | some n => if 1 ≤ n ∧ n ≤ 8 then some n else none
  | none => none

/-- The `film_names` table of `FullSalesAnalyzer.extract_show_name`
(full_sales_analysis.py, lines 119-128), with the `dict.get` default
`f"Harry Potter {film_num}"` (unreachable for 1..8). -/
def fsFilmNames (n : Nat) : String :=
  match n with
  | 1 => "Harry Potter 1 (Sorcerer's Stone)"
  | 2 => "Harry Potter 2 (Chamber of Secrets)"
  | 3 => "Harry Potter 3 (Prisoner of Azkaban)"
  | 4 => "Harry Potter 4 (Goblet of Fire)"
  | 5 => "Harry Potter 5 (Order of the Phoenix)"
  | 6 => "Harry Potter 6 (Half-Blood Prince)"
  | 7 => "Harry Potter 7 (Deathly Hallows Pt 1)"
  | 8 => "Harry Potter 8 (Deathly Hallows Pt 2)"
  | _ => "Harry Potter " ++ toString n

/-- The `film_names` table of `ProgramBookAnalyzer.extract_show_name`
(program_book_sales_analysis.py, lines 94-103), with the `dict.get`
default `f"Harry Potter Film {film_num}"` (unreachable for 1..8). -/
def pbFilmNames (n : Nat) : String :=
  match n with
  | 1 => "Harry Potter and the Sorcerer's Stone"
  | 2 => "Harry Potter and the Chamber of Secrets"
  | 3 => "Harry Potter and the Prisoner of Azkaban"
  | 4 => "Harry Potter and the Goblet of Fire"
  | 5 => "Harry Potter and the Order of the Phoenix"
  | 6 => "Harry Potter and the Half-Blood Prince"
  | 7 => "Harry Potter and the Deathly Hallows Part 1"
  | 8 => "Harry Potter and the Deathly Hallows Part 2"
  | _ => "Harry Potter Film " ++ toString n

/-- The Harry Potter detector's firing condition, shared verbatim by both
analyzers: `'harry potter' in title_lower or sku_upper.startswith('HP')`. -/
def hpDetector (title_lower sku_upper : String) : Bool :=
  containsSub title_lower "harry potter" || sku_upper.startsWith "HP"

/-- Regex `\bpolar\s*express\b` on the lowercased title. -/
def polarRe : Re := rcat [.wb, rlit "polar", .star .space, rlit "express", .wb]

/-- Regex `\belf\b` on the lowercased title. -/
def elfRe : Re := rcat [.wb, rlit "elf", .wb]

/-- `FullSalesAnalyzer.extract_show_name` (full_sales_analysis.py,
lines 112-156). -/
def fsExtractShowName (title sku : String) : String :=
  let title_lower := lowerStr (pyOr title "")
  let sku_upper := upperStr (pyOr sku "")
  if hpDetector title_lower sku_upper then
    match hpInRange (searchHPNum sku_upper.toList) with
    | some n => fsFilmNames n
    | none => "Harry Potter (General)"
  else if reSearch polarRe title_lower || sku_upper.startsWith "POLAR" then
    "The Polar Express"
  else if reSearch elfRe title_lower || sku_upper.startsWith "ELF" then
    "Elf"
  else if reSearch (rcat [.wb, rlit "home", .star .space, rlit "alone", .wb])
            title_lower || sku_upper.startsWith "HA" then
    "Home Alone"
  else if reSearch (rcat [.wb, rlit "godfather", .wb]) title_lower
          || sku_upper.startsWith "GF" then
    "The Godfather"
  else if reSearch (rcat [.wb, rlit "star", .star .space, rlit "trek", .wb])
            title_lower || sku_upper.startsWith "ST" then
    "Star Trek"
  else if reSearch (rcat [.wb, rlit "jurassic", .wb]) title_lower
          || sku_upper.startsWith "JP" then
    "Jurassic Park"
  else if reSearch (rcat [.wb, rlit "back", .star .space, rlit "to",
                          .star .anyc, rlit "future", .wb]) title_lower
          || sku_upper.startsWith "BTTF" then
    "Back to the Future"
  else if reSearch (rcat [.wb, rlit "gladiator", .wb]) title_lower
          || sku_upper.startsWith "GLAD" then
    "Gladiator"
  else if reSearch (rcat [.wb, rlit "titanic", .wb]) title_lower
          || sku_upper.startsWith "TIT" then
    "Titanic"
  else
    "Other/General"

/-- Python `str.strip()` (whitespace trim at both ends). -/
def pyStrip (s : String) : String :=
  let l := (s.toList.dropWhile isPySpace).reverse.dropWhile isPySpace
  String.mk l.reverse

/-- Python `hay.rfind(needle)`: index of the last occurrence, `none` for
Python's `-1`. -/
def rfindSub (hay needle : List Char) : Option Nat :=
  ((List.range (hay.length + 1)).filter
    (fun i => needle.isPrefixOf (hay.drop i))).getLast?

/-- The trailing-suffix list of `ProgramBookAnalyzer.extract_show_name`
(program_book_sales_analysis.py, lines 130-131). -/
def PB_SUFFIXES : List String :=
  ["- Program Book", "- Souvenir Program", "Program Book", "Souvenir Program",
   "- Collector Edition", "Collector Book"]

/-- The suffix-cleanup loop of `ProgramBookAnalyzer.extract_show_name`
(lines 129-140): the last case-insensitive occurrence of the first
applicable suffix is stripped, but only when it sits within the final
`len(suffix) + 5` characters; the loop breaks after the first strip. -/
def pbCleanTitle (suffixes : List String) (clean : String) : String :=
  match suffixes with
  | [] => clean
  | suf :: rest =>
      match rfindSub (lowerStr clean).toList (lowerStr suf).toList with
      | some idx =>
          if (idx : Int) > (clean.length : Int) - (suf.length : Int) - 5 then
            pyStrip (String.mk (clean.toList.take idx))
          else pbCleanTitle rest clean
      | none => pbCleanTitle rest clean

/-- `ProgramBookAnalyzer.extract_show_name` (program_book_sales_analysis.py,
lines 86-140). -/
def pbExtractShowName (title sku : String) : String :=
  let title_lower := lowerStr title
  let sku_upper := upperStr sku
  if hpDetector title_lower sku_upper then
    match hpInRange (searchHPNum sku_upper.toList) with
    | some n => pbFilmNames n
    | none =>
        match hpInRange (filmSearch title_lower.toList) with
        | some n => pbFilmNames n
        | none => "Harry Potter (Unspecified)"
  else if reSearch polarRe title_lower || sku_upper.startsWith "POLAR" then
    "The Polar Express"
  else if reSearch elfRe title_lower || sku_upper.startsWith "ELF" then
    "Elf"
  else
    let clean := pbCleanTitle PB_SUFFIXES title
    if clean = "" then "Unknown Show" else clean

/-!
Shopify order data model, as read by `extract_all_sales` /
`extract_program_book_sales`.  Fields the extractors never read
(`total_discounts`, the `customer` object) are omitted.  JSON money values
are modelled directly as `ℚ` (the sources wrap them in `float(...)`).
-/

/-- One entry of an order's `refunds[].refund_line_items[]`. -/
structure PyRefundLineItem where
  line_item_id : Option Int
  quantity : Option Int
  deriving DecidableEq

/-- One entry of an order's `refunds[]`. -/
structure PyRefund where
  refund_line_items : List PyRefundLineItem
  deriving DecidableEq

/-- One entry of an order's `line_items[]`. -/
structure PyLineItem where
  id : Option Int
  title : Option String
  sku : Option String
  variant_title : Option String
  quantity : Option Int
  price : Option ℚ
  vendor : Option String
  product_id : Option Int
  deriving DecidableEq

/-- An order's `shipping_address` object. -/
structure PyAddress where
  country : Option String
  country_code : Option String
  province : Option String
  province_code : Option String
  city : Option String
  deriving DecidableEq

/-- A raw Shopify order, restricted to the fields the modelled code reads.
`total_price` is read only by `ShopifyOrderFetcher.display_summary`. -/
structure PyOrder where
  name : Option String
  id : Option Int
  created_at : Option String
  financial_status : Option String
  fulfillment_status : Option String
  currency : Option String
  cancelled_at : Option String
  email : Option String
  shipping_address : Option PyAddress
  source_name : Option String
  line_items : List PyLineItem
  refunds : List PyRefund
  total_price : Option ℚ
  deriving DecidableEq

/-- A parsed calendar date (the time-of-day part of the ISO timestamp is
never used downstream). -/
structure YMD where
  y : Nat
  m : Nat
  d : Nat
  deriving DecidableEq

/-- `datetime.fromisoformat(s.replace('Z', '+00:00'))`, restricted to what
the pipeline uses: the leading `YYYY-MM-DD` calendar date.  `none` models a
raised `ValueError`.  The trailing time-of-day/offset portion is accepted
permissively, since no claim exercises a string that is malformed there. -/
def parseISO (s : String) : Option YMD :=
  match s.toList with
  | y1 :: y2 :: y3 :: y4 :: '-' :: m1 :: m2 :: '-' :: d1 :: d2 :: _ =>
      if [y1, y2, y3, y4, m1, m2, d1, d2].all Char.isDigit then
        let y := digitsToNat [y1, y2, y3, y4]
        let m := digitsToNat [m1, m2]
        let d := digitsToNat [d1, d2]
        if 1 ≤ m ∧ m ≤ 12 ∧ 1 ≤ d ∧ d ≤ 31 then some ⟨y, m, d⟩ else none
      else none
  | _ => none

/-- Two-digit zero padding, as in `strftime('%m')` / `strftime('%d')`. -/
def pad2 (n : Nat) : String :=
  if n < 10 then "0" ++ toString n else toString n

/-- `dt.strftime('%Y-%m')`. -/
def fmtMonth (d : YMD) : String := toString d.y ++ "-" ++ pad2 d.m

/-- `f"{dt.year}-Q{(dt.month - 1) // 3 + 1}"`. -/
def fmtQuarter (d : YMD) : String :=
  toString d.y ++ "-Q" ++ toString ((d.m - 1) / 3 + 1)

/-- `dt.strftime('%Y-%m-%d')`. -/
def fmtDate (d : YMD) : String :=
  toString d.y ++ "-" ++ pad2 d.m ++ "-" ++ pad2 d.d

/-- The refund accumulation of both extractors (full_sales_analysis.py,
lines 271-275; program_book_sales_analysis.py, lines 253-257): sum of the
`quantity` of every refund line item whose `line_item_id` equals this line
item's `id` (Python `==` on the two optional values, so two `None`s match). -/
def refundedQty (refunds : List PyRefund) (itemId : Option Int) : Int :=
  (refunds.map (fun r =>
    (r.refund_line_items.map (fun ri =>
      if ri.line_item_id = itemId then ri.quantity.getD 0 else 0)).sum)).sum

/-- A normalized sale row of `FullSalesAnalyzer.extract_all_sales`
(full_sales_analysis.py, lines 287-313). -/
structure SaleRow where
  order_number : String
  order_id : Option Int
  order_date : String
  order_date_formatted : String
  month : String
  quarter : String
  year : String
  product_title : String
  variant_title : String
  sku : String
  vendor : String
  product_id : Option Int
  category : String
  show_name : String
  quantity : Int
  unit_price : ℚ
  line_total : ℚ
  currency : String
  financial_status : String
  fulfillment_status : String
  country : String
  state : String
  city : String
  sales_channel : String
  customer_email : String
  deriving DecidableEq

/-- Per-order context shared by all of the order's line items. -/
structure OrderCtx where
  order_number : String
  order_id : Option Int
  order_date : String
  financial_status : String
  fulfillment_status : String
  currency : String
  customer_email : String
  country : String
  state : String
  city : String
  source_name : String
  refunds : List PyRefund
  deriving DecidableEq

/-- The order-level fields of `extract_all_sales` (lines 231-256).
`country` falls back from full name to code, then to `''`, per
`(shipping.get('country') or shipping.get('country_code')) or ''`. -/
def mkOrderCtx (o : PyOrder) : OrderCtx :=
  let shipping := o.shipping_address.getD ⟨none, none, none, none, none⟩
  { order_number := (o.name).getD ""
    order_id := o.id
    order_date := (o.created_at).getD ""
    financial_status := (o.financial_status).getD ""
    fulfillment_status := pyOr o.fulfillment_status "unfulfilled"
    currency := pyOr o.currency "USD"
    customer_email := (o.email).getD ""
    country := pyOr shipping.country (shipping.country_code.getD "")
    state := pyOr shipping.province (shipping.province_code.getD "")
    city := (shipping.city).getD ""
    source_name := pyOr o.source_name "web"
    refunds := o.refunds }

/-- The body of the line-item loop of `extract_all_sales` (lines 261-313):
zero or one row per line item; `Except.error` models the uncaught
`ValueError` raised by `datetime.fromisoformat` on an unparsable
`created_at` (the parse happens after the net-quantity guard). -/
def fsRowsOfItem (ctx : OrderCtx) (item : PyLineItem) : Except Unit (List SaleRow) :=
  let title := (item.title).getD ""
  let sku := (item.sku).getD ""
  let quantity := (item.quantity).getD 0
  let price := (item.price).getD 0
  let net_quantity := quantity - refundedQty ctx.refunds item.id
  if net_quantity ≤ 0 then .ok []
  else
    match parseISO ctx.order_date with
    | none => .error ()
    | some dt =>
        .ok [{ order_number := ctx.order_number
               order_id := ctx.order_id
               order_date := ctx.order_date
               order_date_formatted := fmtDate dt
               month := fmtMonth dt
               quarter := fmtQuarter dt
               year := toString dt.y
               product_title := title
               variant_title := (item.variant_title).getD ""
               sku := sku
               vendor := (item.vendor).getD ""
               product_id := item.product_id
               category := categorizeProduct title sku
               show_name := fsExtractShowName title sku
               quantity := net_quantity
               unit_price := price
               line_total := price * net_quantity
               currency := ctx.currency
               financial_status := ctx.financial_status
               fulfillment_status := ctx.fulfillment_status
               country := ctx.country
               state := ctx.state
               city := ctx.city
               sales_channel := ctx.source_name
               customer_email := ctx.customer_email }]

/-- The line-item loop of `extract_all_sales` over a whole order. -/
def fsRowsOfItems (ctx : OrderCtx) : List PyLineItem → Except Unit (List SaleRow)
  | [] => .ok []
  | item :: rest => do
      let rs ← fsRowsOfItem ctx item
      let rest' ← fsRowsOfItems ctx rest
      .ok (rs ++ rest')

/-- The order-exclusion guards of `extract_all_sales` (lines 238-244), as a
predicate: cancelled, financial status refunded/voided, or no creation
timestamp. -/
def fsOrderExcluded (o : PyOrder) : Bool :=
  o.cancelled_at.isSome
    || (o.financial_status).getD "" = "refunded"
    || (o.financial_status).getD "" = "voided"
    || (o.created_at).getD "" = ""

/-- One order's contribution to `extract_all_sales`, with the three
`continue` guards in source order. -/
def fsRowsOfOrder (o : PyOrder) : Except Unit (List SaleRow) :=
  let financial_status := (o.financial_status).getD ""
  let order_date := (o.created_at).getD ""
  if o.cancelled_at.isSome then .ok []
  else if financial_status = "refunded" ∨ financial_status = "voided" then .ok []
  else if order_date = "" then .ok []
  else fsRowsOfItems (mkOrderCtx o) o.line_items

/-- `FullSalesAnalyzer.extract_all_sales` (full_sales_analysis.py,
lines 226-315). -/
def extractAllSales : List PyOrder → Except Unit (List SaleRow)
  | [] => .ok []
  | o :: rest => do
      let rs ← fsRowsOfOrder o
      let rest' ← extractAllSales rest
      .ok (rs ++ rest')

/-!
`ProgramBookAnalyzer` extraction (program_book_sales_analysis.py).
-/

/-- The title keywords of `ProgramBookAnalyzer.BOOK_KEYWORDS` (lines 38-45). -/
def BOOK_KEYWORDS : List String :=
  ["program book", "programme book", "souvenir program", "souvenir programme",
   "collector book", "commemorative book"]

/-- The SKU patterns of `ProgramBookAnalyzer.BOOK_SKU_PATTERNS`
(lines 48-52); the source tests them with `in`, i.e. substring containment. -/
def BOOK_SKU_PATTERNS : List String := ["BOOK", "SOUV", "POLARBOOK"]

/-- `ProgramBookAnalyzer.is_program_book` (lines 64-84). -/
def isProgramBook (item : PyLineItem) : Bool :=
  let title := lowerStr ((item.title).getD "")
  let sku := upperStr ((item.sku).getD "")
  let variant_title := lowerStr ((item.variant_title).getD "")
  BOOK_KEYWORDS.any (fun k => containsSub title k || containsSub variant_title k)
    || BOOK_SKU_PATTERNS.any (fun p => containsSub sku p)
    || (containsSub title "book"
        && (containsSub title "program" || containsSub title "souvenir"
            || containsSub title "collector"))

/-- A normalized program-book sale row (lines 265-287); unlike `SaleRow` it
has no vendor/product ids/category fields. -/
structure PbRow where
  order_number : String
  order_date : String
  order_date_formatted : String
  month : String
  quarter : String
  year : String
  product_title : String
  variant_title : String
  sku : String
  show_name : String
  quantity : Int
  unit_price : ℚ
  line_total : ℚ
  currency : String
  financial_status : String
  fulfillment_status : String
  country : String
  state : String
  city : String
  sales_channel : String
  customer_email : String
  deriving DecidableEq

/-- The line-item body of `extract_program_book_sales` (lines 245-287):
only program-book items produce rows; the date parse (`Except.error` models
the uncaught `ValueError`) happens after the net-quantity guard.  Note that
this extractor has no timestamp guard at the order level. -/
def pbRowsOfItem (ctx : OrderCtx) (item : PyLineItem) : Except Unit (List PbRow) :=
  if isProgramBook item then
    let title := (item.title).getD ""
    let sku := (item.sku).getD ""
    let quantity := (item.quantity).getD 0
    let price := (item.price).getD 0
    let net_quantity := quantity - refundedQty ctx.refunds item.id
    if net_quantity ≤ 0 then .ok []
    else
      match parseISO ctx.order_date with
      | none => .error ()
      | some dt =>
          .ok [{ order_number := ctx.order_number
                 order_date := ctx.order_date
                 order_date_formatted := fmtDate dt
                 month := fmtMonth dt
                 quarter := fmtQuarter dt
                 year := toString dt.y
                 product_title := title
                 variant_title := (item.variant_title).getD ""
                 sku := sku
                 show_name := pbExtractShowName title sku
                 quantity := net_quantity
                 unit_price := price
                 line_total := price * net_quantity
                 currency := ctx.currency
                 financial_status := ctx.financial_status
                 fulfillment_status := ctx.fulfillment_status
                 country := ctx.country
                 state := ctx.state
                 city := ctx.city
                 sales_channel := ctx.source_name
                 customer_email := ctx.customer_email }]
  else .ok []

/-- The line-item loop of `extract_program_book_sales` over one order. -/
def pbRowsOfItems (ctx : OrderCtx) : List PyLineItem → Except Unit (List PbRow)
  | [] => .ok []
  | item :: rest => do
      let rs ← pbRowsOfItem ctx item
      let rest' ← pbRowsOfItems ctx rest
      .ok (rs ++ rest')

/-- One order's contribution to `extract_program_book_sales`
(lines 218-287).  The source's order-level fields use plain
`order.get(k, default)` (absent-key defaults); they are modelled with the
same `OrderCtx` builder, which agrees on every field exercised here.
Unlike `FullSalesAnalyzer.extract_all_sales` there is no
`if not order_date: continue` guard. -/
def pbRowsOfOrder (o : PyOrder) : Except Unit (List PbRow) :=
  let financial_status := (o.financial_status).getD ""
  if o.cancelled_at.isSome then .ok []
  else if financial_status = "refunded" ∨ financial_status = "voided" then .ok []
  else pbRowsOfItems (mkOrderCtx o) o.line_items

/-- `ProgramBookAnalyzer.extract_program_book_sales` (lines 214-289). -/
def extractProgramBookSales : List PyOrder → Except Unit (List PbRow)
  | [] => .ok []
  | o :: rest => do
      let rs ← pbRowsOfOrder o
      let rest' ← extractProgramBookSales rest
      .ok (rs ++ rest')

/-!
`FullSalesAnalyzer.generate_summary` (full_sales_analysis.py, lines
317-420).  Python dicts keyed by strings are modelled as insertion-ordered
association lists; `defaultdict(float)` revenue maps and the
`defaultdict(lambda: {...})` buckets become `addRev` / `bupdate`, and the
order-number `set` becomes duplicate-free insertion (`insertOrder`), whose
final `len(...)` is the list length.
-/

/-- `defaultdict(float)` update: `rev[c] += a`, new keys appended in
insertion order. -/
def addRev (rev : List (String × ℚ)) (c : String) (a : ℚ) : List (String × ℚ) :=
  match rev with
  | [] => [(c, a)]
  | (k, v) :: t => if k = c then (k, v + a) :: t else (k, v) :: addRev t c a

/-- Dictionary read with the `defaultdict(float)` default `0.0`. -/
def lookupRev (rev : List (String × ℚ)) (c : String) : ℚ :=
  match rev with
  | [] => 0
  | (k, v) :: t => if k = c then v else lookupRev t c

/-- `set.add`: insert if absent (iteration order of the set is never
observed; only its size is). -/
def insertOrder (l : List String) (x : String) : List String :=
  if x ∈ l then l else l ++ [x]

/-- One aggregation bucket: `{'units': 0, 'revenue': defaultdict(float),
'orders': set()}`. -/
structure Bucket where
  units : Int
  revenue : List (String × ℚ)
  orders : List String
  deriving DecidableEq

/-- The fresh bucket produced by the `defaultdict` factory. -/
def emptyBucket : Bucket := ⟨0, [], []⟩

/-- The three `+=`/`add` statements each dimension performs per sale. -/
def addSale (b : Bucket) (s : SaleRow) : Bucket :=
  { units := b.units + s.quantity
    revenue := addRev b.revenue s.currency s.line_total
    orders := insertOrder b.orders s.order_number }

/-- `defaultdict` bucket update at key `k` with sale `s`. -/
def bupdate (m : List (String × Bucket)) (k : String) (s : SaleRow) :
    List (String × Bucket) :=
  match m with
  | [] => [(k, addSale emptyBucket s)]
  | (k', b) :: t =>
      if k' = k then (k', addSale b s) :: t else (k', b) :: bupdate t k s

/-- Bucket read with the `defaultdict` default. -/
def lookupBucket (m : List (String × Bucket)) (k : String) : Bucket :=
  match m with
  | [] => emptyBucket
  | (k', b) :: t => if k' = k then b else lookupBucket t k

/-- One dimension of the aggregation loop (lines 350-394): fold the sales
into buckets keyed by `key`.  The source updates all dimensions in a single
pass; per-dimension folds build identical dictionaries. -/
def buildBuckets (key : SaleRow → String) (sales : List SaleRow) :
    List (String × Bucket) :=
  sales.foldl (fun m s => bupdate m (key s) s) []

/-- `revenue_by_currency` (lines 323-325). -/
def revenueByCurrency (sales : List SaleRow) : List (String × ℚ) :=
  sales.foldl (fun m s => addRev m s.currency s.line_total) []

/-- `max(keys, key=value)`: Python's `max` keeps the first maximum in
iteration (= insertion) order.  The empty case is unreachable behind the
`if not sales` guard. -/
def primaryCurrencyOf : List (String × ℚ) → String
  | [] => ""
  | (k, v) :: t =>
      (t.foldl (fun best p => if p.2 > best.2 then p else best) (k, v)).1

/-- `generate_summary`'s result, restricted to the dimensions it builds.
The per-product `sku`/`category` echo fields (last writer wins, lines
370-371) are not read by any claim and are omitted. -/
structure PySummary where
  total_units : Int
  revenue_by_currency : List (String × ℚ)
  primary_currency : String
  total_orders : Nat
  unique_products : Nat
  by_category : List (String × Bucket)
  by_show : List (String × Bucket)
  by_product : List (String × Bucket)
  by_month : List (String × Bucket)
  by_quarter : List (String × Bucket)
  by_year : List (String × Bucket)
  by_country : List (String × Bucket)
  by_channel : List (String × Bucket)
  deriving DecidableEq

/-- `FullSalesAnalyzer.generate_summary` (lines 317-420); `none` models the
`{'error': 'No sales found'}` result for empty input. -/
def generateSummary (sales : List SaleRow) : Option PySummary :=
  if sales.isEmpty then none
  else
    let rbc := revenueByCurrency sales
    some
      { total_units := (sales.map (·.quantity)).sum
        revenue_by_currency := rbc
        primary_currency := primaryCurrencyOf rbc
        total_orders := ((sales.map (·.order_number)).dedup).length
        unique_products := ((sales.map (·.product_title)).dedup).length
        by_category := buildBuckets (·.category) sales
        by_show := buildBuckets (·.show_name) sales
        by_product := buildBuckets (·.product_title) sales
        by_month := buildBuckets (·.month) sales
        by_quarter := buildBuckets (·.quarter) sales
        by_year := buildBuckets (·.year) sales
        by_country := buildBuckets (fun s => pyOr (some s.country) "Unknown") sales
        by_channel := buildBuckets (fun s => pyOr (some s.sales_channel) "web") sales }

/-!
`ShopifyOrderFetcher.display_summary` (shopify_order_fetcher.py, lines
269-306): the console total.  `total_amount` sums `total_price` over all
orders regardless of currency, and the summary line prints that single
scalar once per distinct currency.
-/

/-- `total_amount = sum(float(order.get('total_price', 0)) for order in
orders)` (line 279). -/
def displayTotalAmount (orders : List PyOrder) : ℚ :=
  (orders.map (fun o => (o.total_price).getD 0)).sum

/-- `currencies = set(order.get('currency', 'USD') for order in orders)`
(line 280), modelled in first-occurrence order (only membership and the
pairing below are observed). -/
def displayCurrencies (orders : List PyOrder) : List String :=
  (orders.map (fun o => (o.currency).getD "USD")).dedup

/-- The amounts printed by line 292: `f'{c} ${total_amount:.2f}'` for each
currency — the same cross-currency scalar is attached to every currency. -/
def displaySummaryAmounts (orders : List PyOrder) : List (String × ℚ) :=
  (displayCurrencies orders).map (fun c => (c, displayTotalAmount orders))

/-!
The HTTP request engine: `AmplifierClient._request` (amplifier_client.py,
lines 47-108) and `PrintfulClient._request` (printful_client.py, lines
42-106) are control-flow-identical (they differ only in the exception
class name and the response post-processing), so one model covers both.

The server side of one logical request is the sequence of responses it
produces; response `i` answers the request issued by loop iteration
`attempt = i` (every iteration of the `for attempt in range(retry_count)`
loop issues exactly one HTTP request — including the iteration entered by
the `continue` after a 429, which therefore consumes a retry slot).
-/

/-- One HTTP response, as the retry loop discriminates them.  For an error
response the final extracted message (the `error.message` / raw-text
fallback chain) is carried directly. -/
inductive RResp where
  | r429 (retryAfter : Option String)
  | httpErr (msg : String)
  | netErr (msg : String)
  | ok (v : Nat)
  deriving DecidableEq

/-- Outcome of `_request`; `valueError` models an uncaught `ValueError`
(neither `except` clause catches it) escaping the method. -/
inductive ROut where
  | ok (v : Nat)
  | apiError (msg : String)
  | valueError
  deriving DecidableEq

/-- Python `int(s)` on a string: optional surrounding whitespace, optional
sign, then a nonempty digit run; anything else raises `ValueError`
(underscore digit grouping, which Python also accepts, never occurs in a
`Retry-After` header and is not modelled). -/
def pyIntParse (s : String) : Option Int :=
  let l := (s.toList.dropWhile isPySpace).reverse.dropWhile isPySpace
  let l := l.reverse
  match l with
  | '+' :: ds =>
      if !ds.isEmpty && ds.all Char.isDigit then some (digitsToNat ds) else none
  | '-' :: ds =>
      if !ds.isEmpty && ds.all Char.isDigit then some (-(digitsToNat ds : Int))
      else none
  | ds =>
      if !ds.isEmpty && ds.all Char.isDigit then some (digitsToNat ds) else none

/-- `int(response.headers.get('Retry-After', 60))` (amplifier_client.py,
line 83; printful_client.py, line 78): the default `60` is the *int* `60`
(so an absent header never fails); a present header is parsed by `int`,
whose failure (`none`) is an uncaught `ValueError`. -/
def retryAfterVal : Option String → Option Int
  | none => some 60
  | some s => pyIntParse s

/-- The retry loop of `_request`, from loop iteration `attempt` onwards,
with `sleeps` the durations slept so far (429 waits and `2 ** attempt`
backoffs).  `remaining` counts the iterations `range(retry_count)` still
has to run, i.e. `retry_count - attempt`; when it hits zero the loop ends
and the final `raise` fires.  `time.sleep` of a negative duration raises
`ValueError`. -/
def clientRequestGo (resp : Nat → RResp) (retry_count : Nat) :
    Nat → Nat → List Int → ROut × List Int
  | 0, _, sleeps => (.apiError "Max retries exceeded", sleeps)
  | remaining + 1, attempt, sleeps =>
      match resp attempt with
      | .ok v => (.ok v, sleeps)
      | .r429 hdr =>
          match retryAfterVal hdr with
          | none => (.valueError, sleeps)
          | some n =>
              if n < 0 then (.valueError, sleeps)
              else clientRequestGo resp retry_count remaining (attempt + 1)
                (sleeps ++ [n])
      | .httpErr m =>
          if attempt = retry_count - 1 then (.apiError m, sleeps)
          else clientRequestGo resp retry_count remaining (attempt + 1)
            (sleeps ++ [(2 : Int) ^ attempt])
      | .netErr m =>
          if attempt = retry_count - 1 then
            (.apiError ("Request failed: " ++ m), sleeps)
          else clientRequestGo resp retry_count remaining (attempt + 1)
            (sleeps ++ [(2 : Int) ^ attempt])

/-- `_request` (shared by `AmplifierClient` and `PrintfulClient`): run the
retry loop of `range(retry_count)` from attempt 0, returning the outcome
and the sleep log. -/
def clientRequest (resp : Nat → RResp) (retry_count : Nat) : ROut × List Int :=
  clientRequestGo resp retry_count retry_count 0 []

/-!
Paginators.  Each model takes the finite sequence of page responses the
server produces, in the order the requests are issued; the `[]` case is
unreachable for a sequence covering every issued request.
-/

/-- A response to one `GET /items/` page request of
`AmplifierClient.get_all_items`: the `data` list and the `total_pages`
field (`response.get('total_pages', 1)`), or an `AmplifierAPIError`
escaping `_request`. -/
inductive ItemsResp where
  | ok (items : List Nat) (total_pages : Nat)
  | err (e : String)
  deriving DecidableEq

/-- The `while True` loop of `AmplifierClient.get_all_items`
(amplifier_client.py, lines 394-437), starting at page number `page` with
`acc` accumulated.  There is no `try`/`except` in this method: an
`AmplifierAPIError` raised by `_request` propagates (`Except.error`),
discarding the accumulated partial list. -/
def amplifierGetAllItemsGo : List ItemsResp → Nat → List Nat →
    Except String (List Nat)
  | [], _, acc => .ok acc
  | .err e :: _, _, _ => .error e
  | .ok items total_pages :: rest, page, acc =>
      if items.isEmpty then .ok acc
      else
        let acc' := acc ++ items
        if total_pages ≤ page then .ok acc'
        else amplifierGetAllItemsGo rest (page + 1) acc'

/-- `AmplifierClient.get_all_items`: pages are numbered from 1. -/
def amplifierGetAllItems (resps : List ItemsResp) : Except String (List Nat) :=
  amplifierGetAllItemsGo resps 1 []

/-- A response to one `get_products` page request of
`PrintfulClient.get_all_products`: the `data` list and `paging.total`
(`paging.get('total', 0)`).  Errors are not modelled here: the method has
no `try`/`except` and no claim exercises its failure path. -/
inductive PfResp where
  | ok (products : List Nat) (total : Nat)
  deriving DecidableEq

/-- The `while True` loop of `PrintfulClient.get_all_products`
(printful_client.py, lines 478-517), with `limit = 100`: stop on an empty
page or when `offset + limit >= total`. -/
def printfulGetAllProductsGo : List PfResp → Nat → List Nat → List Nat
  | [], _, acc => acc
  | .ok products total :: rest, offset, acc =>
      if products.isEmpty then acc
      else
        let acc' := acc ++ products
        if total ≤ offset + 100 then acc'
        else printfulGetAllProductsGo rest (offset + 100) acc'

/-- `PrintfulClient.get_all_products`: offset starts at 0. -/
def printfulGetAllProducts (resps : List PfResp) : List Nat :=
  printfulGetAllProductsGo resps 0 []

/-- A response to one orders-page request of the cursor-link paginators:
the `orders` list and whether the `Link` header contains a `rel="next"`
entry (when it does, the next-URL extraction of the source always
succeeds), or a caught request/JSON error. -/
inductive PageResp where
  | ok (orders : List Nat) (hasNext : Bool)
  | err
  deriving DecidableEq

/-- The `while True` loop of `FullSalesAnalyzer.fetch_all_orders`
(full_sales_analysis.py, lines 158-224): an empty page breaks before the
`Link` header is examined; an error sets `fetch_error` and breaks,
returning the partial list with the success flag `not fetch_error`. -/
def fsFetchAllOrdersGo : List PageResp → List Nat → List Nat × Bool
  | [], acc => (acc, true)
  | .err :: _, acc => (acc, false)
  | .ok orders hasNext :: rest, acc =>
      if orders.isEmpty then (acc, true)
      else
        let acc' := acc ++ orders
        if hasNext then fsFetchAllOrdersGo rest acc' else (acc', true)

/-- `FullSalesAnalyzer.fetch_all_orders`. -/
def fsFetchAllOrders (resps : List PageResp) : List Nat × Bool :=
  fsFetchAllOrdersGo resps []

/-- `ProgramBookAnalyzer.fetch_all_orders` (program_book_sales_analysis.py,
lines 142-212): identical control flow to `FullSalesAnalyzer`'s (its single
`except requests.exceptions.RequestException` also covers JSON decode
errors, which subclass it in the `requests` library). -/
def pbFetchAllOrdersGo : List PageResp → List Nat → List Nat × Bool
  | [], acc => (acc, true)
  | .err :: _, acc => (acc, false)
  | .ok orders hasNext :: rest, acc =>
      if orders.isEmpty then (acc, true)
      else
        let acc' := acc ++ orders
        if hasNext then pbFetchAllOrdersGo rest acc' else (acc', true)

/-- `ProgramBookAnalyzer.fetch_all_orders`. -/
def pbFetchAllOrders (resps : List PageResp) : List Nat × Bool :=
  pbFetchAllOrdersGo resps []

/-- The `while True` loop of `ShopifyOrderFetcher.fetch_orders`
(shopify_order_fetcher.py, lines 61-139): same cursor walk, but an error
merely breaks — the bare partial list is returned with no success flag. -/
def sofFetchOrdersGo : List PageResp → List Nat → List Nat
  | [], acc => acc
  | .err :: _, acc => acc
  | .ok orders hasNext :: rest, acc =>
      if orders.isEmpty then acc
      else
        let acc' := acc ++ orders
        if hasNext then sofFetchOrdersGo rest acc' else acc'

/-- `ShopifyOrderFetcher.fetch_orders`. -/
def sofFetchOrders (resps : List PageResp) : List Nat :=
  sofFetchOrdersGo resps []

/-- Records of a cursor page response (an `err` response delivers none). -/
def PageResp.records : PageResp → List Nat
  | .ok orders _ => orders
  | .err => []

/-- Records of an Amplifier items-page response. -/
def ItemsResp.records : ItemsResp → List Nat
  | .ok items _ => items
  | .err _ => []

/-- Records of a Printful products-page response. -/
def PfResp.records : PfResp → List Nat
  | .ok products _ => products

/-- Well-formedness of a finite synthetic cursor-page sequence: every page
before the last is nonempty and advertises a next link, and the loop stops
at the last page (it is empty or lacks a next link). -/
def cuWF : List PageResp → Bool
  | [] => true
  | [.ok orders hasNext] => orders.isEmpty || !hasNext
  | [.err] => false
  | .ok orders hasNext :: rest => !orders.isEmpty && hasNext && cuWF rest
  | .err :: _ => false

/-- Well-formedness of a finite synthetic Amplifier page sequence relative
to the next page number to be requested: every page before the last is
nonempty and not yet the reported last page, and the loop stops at the
last one. -/
def amWF : List ItemsResp → Nat → Bool
  | [], _ => true
  | [.ok items total_pages], page => items.isEmpty || total_pages ≤ page
  | [.err _], _ => false
  | .ok items total_pages :: rest, page =>
      !items.isEmpty && decide (page < total_pages) && amWF rest (page + 1)
  | .err _ :: _, _ => false

/-- Well-formedness of a finite synthetic Printful page sequence relative
to the current offset: every page before the last is nonempty with the
reported total strictly beyond the next offset, and the loop stops at the
last one. -/
def pfWF : List PfResp → Nat → Bool
  | [], _ => true
  | [.ok products total], offset => products.isEmpty || total ≤ offset + 100
  | .ok products total :: rest, offset =>
      !products.isEmpty && decide (offset + 100 < total) && pfWF rest (offset + 100)

/-- Every page of a cursor-page prefix is nonempty and advertises a next
link (so the walk traverses the whole prefix). -/
def cuAllNext : List PageResp → Bool
  | [] => true
  | .ok orders hasNext :: rest => !orders.isEmpty && hasNext && cuAllNext rest
  | .err :: _ => false

/-- Every page of an Amplifier prefix is nonempty with the reported page
count strictly beyond it (so the walk traverses the whole prefix). -/
def amAllNext : List ItemsResp → Nat → Bool
  | [], _ => true
  | .ok items total_pages :: rest, page =>
      !items.isEmpty && decide (page < total_pages) && amAllNext rest (page + 1)
  | .err _ :: _, _ => false

/-!
## Claim C1: end-to-end scenario

The two-order fixture prescribed by the specification.
-/

/-- Order A of the end-to-end scenario: paid, one line item
"Harry Potter 3 Program Book" / SKU "HP3USABOOK", quantity 4 at 12.00 USD,
created 2024-03-15T00:00:00Z, no refunds. -/
def c1OrderA : PyOrder :=
  { name := some "A"
    id := some 1001
    created_at := some "2024-03-15T00:00:00Z"
    financial_status := some "paid"
    fulfillment_status := none
    currency := some "USD"
    cancelled_at := none
    email := some "a@example.com"
    shipping_address := none
    source_name := some "web"
    line_items := [{ id := some 11
                     title := some "Harry Potter 3 Program Book"
                     sku := some "HP3USABOOK"
                     variant_title := none
                     quantity := some 4
                     price := some 12
                     vendor := none
                     product_id := some 5 }]
    refunds := []
    total_price := some 48 }

/-- Order B of the end-to-end scenario: financial status "refunded", with a
line item (its contents are irrelevant — the order must be excluded). -/
def c1OrderB : PyOrder :=
  { name := some "B"
    id := some 1002
    created_at := some "2024-03-16T00:00:00Z"
    financial_status := some "refunded"
    fulfillment_status := none
    currency := some "USD"
    cancelled_at := none
    email := none
    shipping_address := none
    source_name := none
    line_items := [{ id := some 12
                     title := some "Some Tee"
                     sku := some "X"
                     variant_title := none
                     quantity := some 1
                     price := some 5
                     vendor := none
                     product_id := none }]
    refunds := []
    total_price := some 5 }

/-- C1 (end-to-end scenario): on the two-order fixture,
`extract_all_sales` excludes Order B entirely and yields exactly one row
for Order A with category "Program Books", show label
"Harry Potter 3 (Prisoner of Azkaban)", net quantity 4, line total 48.00,
month "2024-03", quarter "2024-Q1", year "2024"; `generate_summary` on
those rows reports total_units = 4, by_show revenue of 48.0 USD for that
show, and total_orders = 1. -/
theorem claim_C1_end_to_end :
    (extractAllSales [c1OrderA, c1OrderB]).toOption.map
        (fun rs => rs.map (fun r =>
          (r.order_number, r.category, r.show_name, r.quantity, r.line_total))) =
      some [("A", "Program Books", "Harry Potter 3 (Prisoner of Azkaban)",
             (4 : Int), (48 : ℚ))]
    ∧ (extractAllSales [c1OrderA, c1OrderB]).toOption.map
        (fun rs => rs.map (fun r => (r.month, r.quarter, r.year))) =
      some [("2024-03", "2024-Q1", "2024")]
    ∧ (extractAllSales [c1OrderA, c1OrderB]).toOption.map
        (fun rs => (generateSummary rs).map (fun sm =>
          (sm.total_units,
           lookupRev (lookupBucket sm.by_show
             "Harry Potter 3 (Prisoner of Azkaban)").revenue "USD",
           sm.total_orders))) =
      some (some ((4 : Int), (48 : ℚ), 1)) := by
  refine ⟨?_, ?_, ?_⟩ <;> with_unfolding_all decide

/-!
## Claim C4: refund-adjusted quantity
-/

/-- Summing a guarded quantity equals summing over the filtered list. -/
theorem sum_ite_eq_sum_filter (l : List PyRefundLineItem) (p : PyRefundLineItem → Prop)
    [DecidablePred p] :
    (l.map (fun ri => if p ri then (ri.quantity).getD 0 else 0)).sum =
      ((l.filter (fun ri => decide (p ri))).map (fun ri => (ri.quantity).getD 0)).sum := by
  induction l with
  | nil => simp
  | cons hd tl ih =>
      by_cases h : p hd <;> simp [h, ih]

/-- C4 (refund-adjusted quantity): the refunded quantity of a line item is
the sum of the quantities of exactly those refund line items, across all of
the order's refund records, whose `line_item_id` matches the item's `id`;
a line item whose net quantity (ordered minus refunded) is ≤ 0 produces no
row, and one with positive net quantity produces exactly one row carrying
that net quantity (so an item with no matching refund entries keeps its
ordered quantity). -/
theorem claim_C4_refund_adjusted_quantity :
    (∀ (refunds : List PyRefund) (itemId : Option Int),
        refundedQty refunds itemId =
          (((refunds.flatMap (fun r => r.refund_line_items)).filter
              (fun ri => decide (ri.line_item_id = itemId))).map
            (fun ri => (ri.quantity).getD 0)).sum)
    ∧ (∀ ctx item, (item.quantity).getD 0 - refundedQty ctx.refunds item.id ≤ 0 →
        fsRowsOfItem ctx item = .ok [])
    ∧ (∀ ctx item dt, parseISO ctx.order_date = some dt →
        0 < (item.quantity).getD 0 - refundedQty ctx.refunds item.id →
        ∃ r, fsRowsOfItem ctx item = .ok [r] ∧
          r.quantity = (item.quantity).getD 0 - refundedQty ctx.refunds item.id) := by
  refine ⟨?_, ?_, ?_⟩
  · intro refunds itemId
    induction refunds with
    | nil => simp [refundedQty]
    | cons r rest ih =>
        simp only [refundedQty, List.map_cons, List.sum_cons, List.flatMap_cons,
          List.filter_append, List.map_append, List.sum_append] at *
        rw [ih]
        congr 1
        exact sum_ite_eq_sum_filter r.refund_line_items
          (fun ri => ri.line_item_id = itemId)
  · intro ctx item h
    simp only [fsRowsOfItem]
    rw [if_pos h]
  · intro ctx item dt hdt hpos
    simp only [fsRowsOfItem]
    rw [if_neg (by omega), hdt]
    exact ⟨_, rfl, rfl⟩

/-- Witness for C4: ordered quantity 5 with two partial refunds of 2 and 1
yields a row of net quantity 2; refunds of 2 and 3 drop the row; no
matching refunds keep the ordered quantity 5. -/
theorem claim_C4_witness :
    (∃ r, fsRowsOfItem
        { order_number := "O", order_id := none,
          order_date := "2024-01-02T00:00:00Z", financial_status := "paid",
          fulfillment_status := "unfulfilled", currency := "USD",
          customer_email := "", country := "", state := "", city := "",
          source_name := "web",
          refunds := [⟨[⟨some 7, some 2⟩]⟩, ⟨[⟨some 7, some 1⟩]⟩] }
        { id := some 7, title := some "T", sku := some "S",
          variant_title := none, quantity := some 5, price := some 3,
          vendor := none, product_id := none } = .ok [r] ∧ r.quantity = 2)
    ∧ fsRowsOfItem
        { order_number := "O", order_id := none,
          order_date := "2024-01-02T00:00:00Z", financial_status := "paid",
          fulfillment_status := "unfulfilled", currency := "USD",
          customer_email := "", country := "", state := "", city := "",
          source_name := "web",
          refunds := [⟨[⟨some 7, some 2⟩]⟩, ⟨[⟨some 7, some 3⟩]⟩] }
        { id := some 7, title := some "T", sku := some "S",
          variant_title := none, quantity := some 5, price := some 3,
          vendor := none, product_id := none } = .ok []
    ∧ (∃ r, fsRowsOfItem
        { order_number := "O", order_id := none,
          order_date := "2024-01-02T00:00:00Z", financial_status := "paid",
          fulfillment_status := "unfulfilled", currency := "USD",
          customer_email := "", country := "", state := "", city := "",
          source_name := "web", refunds := [] }
        { id := some 7, title := some "T", sku := some "S",
          variant_title := none, quantity := some 5, price := some 3,
          vendor := none, product_id := none } = .ok [r] ∧ r.quantity = 5) := by
  refine ⟨?_, ?_, ?_⟩
  · obtain ⟨r, h1, h2⟩ := claim_C4_refund_adjusted_quantity.2.2
      { order_number := "O", order_id := none,
        order_date := "2024-01-02T00:00:00Z", financial_status := "paid",
        fulfillment_status := "unfulfilled", currency := "USD",
        customer_email := "", country := "", state := "", city := "",
        source_name := "web",
        refunds := [⟨[⟨some 7, some 2⟩]⟩, ⟨[⟨some 7, some 1⟩]⟩] }
      { id := some 7, title := some "T", sku := some "S",
        variant_title := none, quantity := some 5, price := some 3,
        vendor := none, product_id := none }
      ⟨2024, 1, 2⟩ (by decide) (by decide)
    exact ⟨r, h1, by rw [h2]; decide⟩
  · exact claim_C4_refund_adjusted_quantity.2.1 _ _ (by decide)
  · obtain ⟨r, h1, h2⟩ := claim_C4_refund_adjusted_quantity.2.2
      { order_number := "O", order_id := none,
        order_date := "2024-01-02T00:00:00Z", financial_status := "paid",
        fulfillment_status := "unfulfilled", currency := "USD",
        customer_email := "", country := "", state := "", city := "",
        source_name := "web", refunds := [] }
      { id := some 7, title := some "T", sku := some "S",
        variant_title := none, quantity := some 5, price := some 3,
        vendor := none, product_id := none }
      ⟨2024, 1, 2⟩ (by decide) (by decide)
    exact ⟨r, h1, by rw [h2]; decide⟩

/-!
## Claim C6: order-level exclusion (corrected)

`FullSalesAnalyzer.extract_all_sales` has all three guards (cancelled,
refunded/voided, missing timestamp).  `ProgramBookAnalyzer.
extract_program_book_sales` has no timestamp guard: an order without a
creation timestamp is not excluded, and if it carries a program-book line
item with positive net quantity the date parse raises an uncaught
`ValueError` instead.
-/

/-- A non-cancelled, paid order with no creation timestamp and one
program-book line item. -/
def c6Order : PyOrder :=
  { name := some "N"
    id := none
    created_at := none
    financial_status := some "paid"
    fulfillment_status := none
    currency := some "USD"
    cancelled_at := none
    email := none
    shipping_address := none
    source_name := none
    line_items := [{ id := some 1
                     title := some "Harry Potter Program Book"
                     sku := some "HP1USABOOK"
                     variant_title := none
                     quantity := some 1
                     price := some 10
                     vendor := none
                     product_id := none }]
    refunds := []
    total_price := none }

/-- Counterexample to C6 as stated: in the program-book normalizer an
order with no creation timestamp is not excluded before line-item
extraction — extraction of this paid, non-cancelled, timestamp-less order
raises an uncaught `ValueError` (`toOption = none`) rather than emitting
zero rows. -/
theorem claim_C6_counterexample :
    (extractProgramBookSales [c6Order]).toOption = none
    ∧ c6Order.cancelled_at = none
    ∧ c6Order.financial_status = some "paid"
    ∧ c6Order.created_at = none := by
  with_unfolding_all decide

/-- C6 as amended (order-level exclusion): in
`FullSalesAnalyzer.extract_all_sales`, every order that is cancelled, or
has financial status "refunded" or "voided", or has no creation timestamp
contributes zero rows, and every other order proceeds to line-item
extraction; in `ProgramBookAnalyzer.extract_program_book_sales` only the
cancelled and refunded/voided exclusions exist (there is no timestamp
guard, see the counterexample). -/
theorem claim_C6_order_exclusion :
    (∀ o : PyOrder,
        (o.cancelled_at.isSome = true
          ∨ (o.financial_status).getD "" = "refunded"
          ∨ (o.financial_status).getD "" = "voided"
          ∨ (o.created_at).getD "" = "") →
        fsRowsOfOrder o = .ok [])
    ∧ (∀ o : PyOrder,
        ¬(o.cancelled_at.isSome = true
          ∨ (o.financial_status).getD "" = "refunded"
          ∨ (o.financial_status).getD "" = "voided"
          ∨ (o.created_at).getD "" = "") →
        fsRowsOfOrder o = fsRowsOfItems (mkOrderCtx o) o.line_items)
    ∧ (∀ o : PyOrder,
        (o.cancelled_at.isSome = true
          ∨ (o.financial_status).getD "" = "refunded"
          ∨ (o.financial_status).getD "" = "voided") →
        pbRowsOfOrder o = .ok []) := by
  refine ⟨?_, ?_, ?_⟩
  · intro o h
    simp only [fsRowsOfOrder]
    split_ifs with h1 h2 h3
    · rfl
    · rfl
    · rfl
    · refine absurd h ?_
      intro hc
      rcases hc with hc | hc | hc | hc
      · exact h1 hc
      · exact h2 (Or.inl hc)
      · exact h2 (Or.inr hc)
      · exact h3 hc
  · intro o h
    simp only [fsRowsOfOrder]
    split_ifs with h1 h2 h3
    · exact absurd (Or.inl h1) h
    · exact absurd (Or.inr (Or.inl (by tauto))) (by tauto)
    · exact absurd (Or.inr (Or.inr (Or.inr h3))) h
    · rfl
  · intro o h
    simp only [pbRowsOfOrder]
    split_ifs with h1 h2
    · rfl
    · rfl
    · refine absurd h ?_
      intro hc
      rcases hc with hc | hc | hc
      · exact h1 hc
      · exact h2 (Or.inl hc)
      · exact h2 (Or.inr hc)

/-- Witness for C6 as amended: a cancelled order and a voided order
contribute zero rows in both extractors, and a well-formed paid order
proceeds to line-item extraction in `extract_all_sales`. -/
theorem claim_C6_witness :
    fsRowsOfOrder { c6Order with cancelled_at := some "2024-01-01T00:00:00Z" } = .ok []
    ∧ fsRowsOfOrder { c6Order with financial_status := some "voided" } = .ok []
    ∧ fsRowsOfOrder c1OrderA =
        fsRowsOfItems (mkOrderCtx c1OrderA) c1OrderA.line_items
    ∧ pbRowsOfOrder { c6Order with financial_status := some "refunded" } = .ok [] := by
  refine ⟨?_, ?_, ?_, ?_⟩
  · exact claim_C6_order_exclusion.1 _ (Or.inl (by decide))
  · exact claim_C6_order_exclusion.1 _ (Or.inr (Or.inr (Or.inl (by decide))))
  · exact claim_C6_order_exclusion.2.1 _ (by decide)
  · exact claim_C6_order_exclusion.2.2 _ (Or.inr (Or.inl (by decide)))

/-!
## Claim C9: franchise-number extraction and fallback

The specification follows the word-boundary-safe detector of
`ProgramBookAnalyzer.extract_show_name` (its design note flags the other,
`FullSalesAnalyzer` variant, whose fallback label is
"Harry Potter (General)", as the divergent near-duplicate).
-/

/-- C9 (franchise-number fallback): whenever the Harry Potter detector
fires (title contains the franchise name or the SKU starts with "HP"), an
in-range (1-8) number extracted from the SKU maps through the film-name
table; if neither the SKU nor the title yields an in-range number the
result is the generic "Harry Potter (Unspecified)" label.  The extraction
is word-boundary safe: the SKU "HP10USABOOK" extracts 10 (never 1), which
is out of range, so the generic label results — not a film name. -/
theorem claim_C9_franchise_number :
    (∀ title sku, hpDetector (lowerStr title) (upperStr sku) = true →
        (∀ n, hpInRange (searchHPNum (upperStr sku).toList) = some n →
            pbExtractShowName title sku = pbFilmNames n)
        ∧ (hpInRange (searchHPNum (upperStr sku).toList) = none →
            hpInRange (filmSearch (lowerStr title).toList) = none →
            pbExtractShowName title sku = "Harry Potter (Unspecified)"))
    ∧ searchHPNum (upperStr "HP10USABOOK").toList = some 10
    ∧ pbExtractShowName "Harry Potter Program Book" "HP10USABOOK"
        = "Harry Potter (Unspecified)"
    ∧ pbExtractShowName "Harry Potter Program Book" "HP1USABOOK"
        = "Harry Potter and the Sorcerer's Stone"
    ∧ (∀ n, 1 ≤ n → n ≤ 8 → pbFilmNames n ≠ "Harry Potter (Unspecified)") := by
  refine ⟨?_, by with_unfolding_all decide, by with_unfolding_all decide, by with_unfolding_all decide, ?_⟩
  · intro title sku h
    constructor
    · intro n hn
      simp only [pbExtractShowName]
      rw [if_pos h, hn]
    · intro h1 h2
      simp only [pbExtractShowName]
      rw [if_pos h, h1, h2]
  · intro n h1 h8
    interval_cases n <;> with_unfolding_all decide

/-- Witness for C9: the theorem applied to concrete inputs — SKU "HP3X"
with a firing title maps to film 3, and SKU "HP99BOOK" (in-range nowhere)
falls back to the generic label. -/
theorem claim_C9_witness :
    pbExtractShowName "Harry Potter Show" "HP3X"
      = "Harry Potter and the Prisoner of Azkaban"
    ∧ pbExtractShowName "Harry Potter Show" "HP99BOOK"
      = "Harry Potter (Unspecified)" := by
  constructor
  · have h := (claim_C9_franchise_number.1 "Harry Potter Show" "HP3X"
      (by with_unfolding_all decide)).1 3 (by with_unfolding_all decide)
    rw [h]
    rfl
  · exact (claim_C9_franchise_number.1 "Harry Potter Show" "HP99BOOK"
      (by with_unfolding_all decide)).2 (by with_unfolding_all decide) (by with_unfolding_all decide)

/-!
## Claim C2: currency isolation (corrected)

The aggregation buckets of `generate_summary` are currency-isolated: each
bucket's revenue maps a currency to the sum of line totals of that
currency only.  But the repository does sum revenue across currencies into
one scalar: `ShopifyOrderFetcher.display_summary` computes `total_amount`
over all orders regardless of currency and prints that single scalar once
per currency.
-/

/-- Reading a revenue map after a `defaultdict(float)` update. -/
theorem lookupRev_addRev (rev : List (String × ℚ)) (c' : String) (a : ℚ)
    (c : String) :
    lookupRev (addRev rev c' a) c =
      lookupRev rev c + (if c = c' then a else 0) := by
  induction rev with
  | nil =>
      by_cases h : c = c'
      · subst h
        simp [addRev, lookupRev]
      · simp [addRev, lookupRev, h, Ne.symm h]
  | cons hd tl ih =>
      obtain ⟨k, v⟩ := hd
      by_cases hk : k = c'
      · subst hk
        by_cases hc : c = k
        · subst hc
          simp [addRev, lookupRev]
        · simp [addRev, lookupRev, hc, Ne.symm hc]
      · by_cases hc : k = c
        · subst hc
          simp [addRev, lookupRev, hk, Ne.symm hk]
        · simp [addRev, lookupRev, hk, hc, ih]

/-- Reading a bucket map after a `defaultdict` bucket update. -/
theorem lookupBucket_bupdate (m : List (String × Bucket)) (k' : String)
    (s : SaleRow) (k : String) :
    lookupBucket (bupdate m k' s) k =
      if k = k' then addSale (lookupBucket m k') s else lookupBucket m k := by
  induction m with
  | nil =>
      by_cases h : k = k'
      · subst h
        simp [bupdate, lookupBucket]
      · simp [bupdate, lookupBucket, h, Ne.symm h]
  | cons hd tl ih =>
      obtain ⟨k0, b⟩ := hd
      by_cases h0 : k0 = k'
      · subst h0
        by_cases hk : k = k0
        · subst hk
          simp [bupdate, lookupBucket]
        · simp [bupdate, lookupBucket, hk, Ne.symm hk]
      · by_cases hk : k0 = k
        · subst hk
          simp [bupdate, lookupBucket, h0, Ne.symm h0]
        · simp [bupdate, lookupBucket, h0, hk, ih]

/-- The units accumulated in one bucket of the aggregation fold. -/
theorem buildBuckets_units (key : SaleRow → String) (k : String) :
    ∀ (sales : List SaleRow) (m : List (String × Bucket)),
      (lookupBucket (sales.foldl (fun m s => bupdate m (key s) s) m) k).units
        = (lookupBucket m k).units
          + ((sales.filter (fun s => key s == k)).map (·.quantity)).sum := by
  intro sales
  induction sales with
  | nil => simp
  | cons s rest ih =>
      intro m
      simp only [List.foldl_cons, List.filter_cons]
      rw [ih, lookupBucket_bupdate]
      by_cases h : key s = k
      · have hb : (key s == k) = true := by simp [h]
        rw [if_pos h.symm]
        simp only [hb, addSale, h]
        rw [if_pos (by simp)]
        simp only [List.map_cons, List.sum_cons]
        ring
      · have hb : (key s == k) = false := by simp [h]
        rw [if_neg (Ne.symm h)]
        simp [hb]

/-- The revenue accumulated, per currency, in one bucket of the
aggregation fold. -/
theorem buildBuckets_revenue (key : SaleRow → String) (k c : String) :
    ∀ (sales : List SaleRow) (m : List (String × Bucket)),
      lookupRev (lookupBucket
          (sales.foldl (fun m s => bupdate m (key s) s) m) k).revenue c
        = lookupRev (lookupBucket m k).revenue c
          + ((sales.filter (fun s =>
              key s == k && s.currency == c)).map (·.line_total)).sum := by
  intro sales
  induction sales with
  | nil => simp
  | cons s rest ih =>
      intro m
      simp only [List.foldl_cons, List.filter_cons]
      rw [ih, lookupBucket_bupdate]
      by_cases h : key s = k
      · rw [if_pos h.symm]
        simp only [addSale, lookupRev_addRev]
        by_cases hc : s.currency = c
        · have hb : (key s == k && s.currency == c) = true := by simp [h, hc]
          rw [if_pos hc.symm]
          simp only [hb, h]
          rw [if_pos (by simp [hc])]
          simp only [List.map_cons, List.sum_cons]
          ring
        · have hb : (key s == k && s.currency == c) = false := by simp [hc]
          rw [if_neg (Ne.symm hc)]
          simp only [hb, h, add_zero]
          rw [if_neg (by simp [hc] : ¬((k == k && s.currency == c) = true))]
      · have hb : (key s == k && s.currency == c) = false := by simp [h]
        rw [if_neg (Ne.symm h)]
        simp [hb]

/-- A minimal aggregator input row: 3 units at 10.00 USD in show bucket
"S" (all fields not read by the aggregation are blank). -/
def c2RowUSD : SaleRow :=
  { order_number := "O1", order_id := none, order_date := "",
    order_date_formatted := "2024-01-01", month := "2024-01",
    quarter := "2024-Q1", year := "2024", product_title := "P1",
    variant_title := "", sku := "", vendor := "", product_id := none,
    category := "C", show_name := "S", quantity := 3, unit_price := 10,
    line_total := 30, currency := "USD", financial_status := "paid",
    fulfillment_status := "unfulfilled", country := "", state := "",
    city := "", sales_channel := "web", customer_email := "" }

/-- A second aggregator input row: 2 units at 8.00 EUR in the same show
bucket "S". -/
def c2RowEUR : SaleRow :=
  { c2RowUSD with
      order_number := "O2"
      product_title := "P2"
      quantity := 2
      unit_price := 8
      line_total := 16
      currency := "EUR" }

/-- An order of 10.00 USD, as `display_summary` reads it. -/
def c2OrderUSD : PyOrder :=
  { name := some "O1", id := none, created_at := none,
    financial_status := some "paid", fulfillment_status := none,
    currency := some "USD", cancelled_at := none, email := none,
    shipping_address := none, source_name := none, line_items := [],
    refunds := [], total_price := some 10 }

/-- An order of 8.00 EUR. -/
def c2OrderEUR : PyOrder :=
  { c2OrderUSD with
      name := some "O2"
      currency := some "EUR"
      total_price := some 8 }

/-- Counterexample to C2 as stated ("revenue amounts are never summed
across currencies into one scalar"): `ShopifyOrderFetcher.display_summary`
sums `total_price` across a 10.00 USD order and an 8.00 EUR order into the
single scalar 18.00 and displays that same cross-currency figure for both
the USD and the EUR label. -/
theorem claim_C2_counterexample :
    displayTotalAmount [c2OrderUSD, c2OrderEUR] = 18
    ∧ displaySummaryAmounts [c2OrderUSD, c2OrderEUR] =
        [("USD", 18), ("EUR", 18)] := by
  constructor <;> with_unfolding_all decide

/-- C2 as amended (currency isolation in the aggregator): in every
`generate_summary` result, each by-show bucket's revenue maps a currency to
the sum of the line totals of exactly the rows of that show and that
currency, and its units to the sum of those rows' quantities (so the
two-currency example yields {USD: 30, EUR: 16} with 5 units, never a
combined 46).  The cross-currency scalar of
`ShopifyOrderFetcher.display_summary` (see the counterexample) is the one
place revenue is coerced into a single figure. -/
theorem claim_C2_currency_isolation :
    (∀ (sales : List SaleRow) (sm : PySummary),
        generateSummary sales = some sm →
        ∀ (k c : String),
          lookupRev (lookupBucket sm.by_show k).revenue c =
              ((sales.filter (fun s =>
                s.show_name == k && s.currency == c)).map (·.line_total)).sum
          ∧ (lookupBucket sm.by_show k).units =
              ((sales.filter (fun s =>
                s.show_name == k)).map (·.quantity)).sum)
    ∧ (generateSummary [c2RowUSD, c2RowEUR]).map (fun sm =>
          (lookupRev (lookupBucket sm.by_show "S").revenue "USD",
           lookupRev (lookupBucket sm.by_show "S").revenue "EUR",
           (lookupBucket sm.by_show "S").units)) =
        some ((30 : ℚ), (16 : ℚ), (5 : Int)) := by
  constructor
  · intro sales sm hsm k c
    have hby : sm.by_show = buildBuckets (·.show_name) sales := by
      unfold generateSummary at hsm
      split at hsm
      · exact Option.noConfusion hsm
      · rw [← Option.some.inj hsm]
    rw [hby]
    constructor
    · have h := buildBuckets_revenue (·.show_name) k c sales []
      simpa [buildBuckets, lookupBucket, lookupRev, emptyBucket] using h
    · have h := buildBuckets_units (·.show_name) k sales []
      simpa [buildBuckets, lookupBucket, emptyBucket] using h
  · with_unfolding_all decide

/-- Witness for C2 as amended: the bucket-isolation equation instantiated
at the two-currency fixture. -/
theorem claim_C2_witness :
    (generateSummary [c2RowUSD, c2RowEUR]).map (fun sm =>
        lookupRev (lookupBucket sm.by_show "S").revenue "USD") =
      some ((([c2RowUSD, c2RowEUR].filter (fun s =>
        s.show_name == "S" && s.currency == "USD")).map
          (·.line_total)).sum) := by
  cases hg : generateSummary [c2RowUSD, c2RowEUR] with
  | none => exact absurd hg (by with_unfolding_all decide)
  | some sm =>
      exact congrArg some
        ((claim_C2_currency_isolation.1 [c2RowUSD, c2RowEUR] sm hg "S" "USD").1)

/-!
## Claim C8: retry-after duration (corrected)

The 60-second fallback only covers an *absent* `Retry-After` header (the
`dict.get` default).  A present non-numeric header reaches `int(...)`,
whose `ValueError` is caught by neither `except` clause and escapes
`_request`.
-/

/-- Counterexample to C8 as stated: a 429 response whose `Retry-After`
header is the non-numeric string "soon" does not fall back to 60 seconds —
`int("soon")` raises an uncaught `ValueError` (no sleep, no retry), so the
wait-duration computation can raise. -/
theorem claim_C8_counterexample :
    clientRequest (fun _ => RResp.r429 (some "soon")) 3 = (.valueError, [])
    ∧ pyIntParse "soon" = none
    ∧ retryAfterVal (some "soon") = none := by
  refine ⟨?_, ?_, ?_⟩ <;> decide

/-- C8 as amended (retry-after duration): an absent `Retry-After` header
falls back to exactly 60 seconds and a numeric header sleeps exactly its
parsed value before the same request is reissued; but a present
non-numeric header raises an uncaught `ValueError` instead of falling back
(see the counterexample). -/
theorem claim_C8_retry_after :
    retryAfterVal none = some 60
    ∧ (∀ s n, pyIntParse s = some n → retryAfterVal (some s) = some n)
    ∧ (∀ (resp : Nat → RResp) (rc v : Nat), 2 ≤ rc →
        resp 0 = .r429 none → resp 1 = .ok v →
        clientRequest resp rc = (.ok v, [60]))
    ∧ (∀ (resp : Nat → RResp) (rc v : Nat) (s : String) (n : Int),
        2 ≤ rc → 0 ≤ n → pyIntParse s = some n →
        resp 0 = .r429 (some s) → resp 1 = .ok v →
        clientRequest resp rc = (.ok v, [n]))
    ∧ (∀ (s : String), pyIntParse s = none →
        ∀ (resp : Nat → RResp) (rc : Nat), 1 ≤ rc →
        resp 0 = .r429 (some s) →
        clientRequest resp rc = (.valueError, [])) := by
  refine ⟨rfl, ?_, ?_, ?_, ?_⟩
  · intro s n h
    simp [retryAfterVal, h]
  · intro resp rc v hrc h0 h1
    obtain ⟨k, rfl⟩ : ∃ k, rc = k + 2 := ⟨rc - 2, by omega⟩
    show clientRequestGo resp (k + 2) (k + 2) 0 [] = (.ok v, [60])
    have e2 : k + 2 = (k + 1) + 1 := rfl
    rw [e2, clientRequestGo, h0]
    simp only [retryAfterVal]
    rw [if_neg (by norm_num)]
    simp only [List.nil_append]
    rw [clientRequestGo, h1]
  · intro resp rc v s n hrc hn hs h0 h1
    obtain ⟨k, rfl⟩ : ∃ k, rc = k + 2 := ⟨rc - 2, by omega⟩
    show clientRequestGo resp (k + 2) (k + 2) 0 [] = (.ok v, [n])
    have e2 : k + 2 = (k + 1) + 1 := rfl
    rw [e2, clientRequestGo, h0]
    have hval : retryAfterVal (some s) = some n := hs
    simp only [hval]
    rw [if_neg (by omega)]
    simp only [List.nil_append]
    rw [clientRequestGo, h1]
  · intro s hs resp rc hrc h0
    obtain ⟨k, rfl⟩ : ∃ k, rc = k + 1 := ⟨rc - 1, by omega⟩
    show clientRequestGo resp (k + 1) (k + 1) 0 [] = (.valueError, [])
    rw [clientRequestGo, h0]
    have hval : retryAfterVal (some s) = none := hs
    simp only [hval]

/-- Witness for C8 as amended: an absent header sleeps 60; a header of
"5" sleeps 5; a header of "soon" raises. -/
theorem claim_C8_witness :
    clientRequest (fun i => if i = 0 then .r429 none else .ok 9) 3 = (.ok 9, [60])
    ∧ clientRequest (fun i => if i = 0 then .r429 (some "5") else .ok 9) 3 =
        (.ok 9, [5])
    ∧ clientRequest (fun _ => .r429 (some "soon")) 2 = (.valueError, []) := by
  refine ⟨?_, ?_, ?_⟩
  · exact claim_C8_retry_after.2.2.1 _ 3 9 (by omega) rfl rfl
  · exact claim_C8_retry_after.2.2.2.1 _ 3 9 "5" 5 (by omega) (by omega)
      (by decide) rfl rfl
  · exact claim_C8_retry_after.2.2.2.2 "soon" (by decide) _ 2 (by omega) rfl

/-!
## Claim C3: rate-limit handling (corrected)

The `continue` after the 429 sleep advances the `for attempt in
range(retry_count)` loop, so every 429 response *does* consume a retry
slot: `retry_count` consecutive 429s exhaust the budget and raise
"Max retries exceeded" even if the next response would have succeeded.
-/

/-- Counterexample to C3 as stated: with the default `retry_count = 3`,
three 429 responses followed by a success do not succeed — the three 429s
consume the whole retry budget (one sleep each) and the request fails with
"Max retries exceeded" without ever issuing the fourth request. -/
theorem claim_C3_counterexample :
    clientRequest (fun i => if i < 3 then RResp.r429 (some "1") else RResp.ok 7) 3
      = (.apiError "Max retries exceeded", [1, 1, 1]) := by
  decide

/-- A response is a 429 whose retry-after computation yields a
non-negative sleep (so the loop sleeps and continues). -/
def good429 (resp : Nat → RResp) (i : Nat) : Prop :=
  ∃ hdr n, resp i = .r429 hdr ∧ retryAfterVal hdr = some n ∧ 0 ≤ n

/-- Retry-loop invariant: from attempt `attempt` with `remaining`
iterations left, if every response before index `k` is a well-formed 429
and response `k` succeeds within the budget, the loop returns it. -/
theorem clientRequestGo_ok_of_429s (resp : Nat → RResp) (rc k v : Nat)
    (hk : k < rc) (hgood : ∀ i, i < k → good429 resp i)
    (hok : resp k = .ok v) :
    ∀ (remaining attempt : Nat) (sleeps : List Int),
      attempt + remaining = rc → attempt ≤ k →
      (clientRequestGo resp rc remaining attempt sleeps).1 = .ok v := by
  intro remaining
  induction remaining with
  | zero =>
      intro attempt sleeps he hle
      omega
  | succ r ih =>
      intro attempt sleeps he hle
      rcases Nat.lt_or_ge attempt k with hlt | hge
      · obtain ⟨hdr, n, h429, hval, hn⟩ := hgood attempt hlt
        rw [clientRequestGo]
        simp only [h429, hval]
        rw [if_neg (by omega)]
        exact ih (attempt + 1) (sleeps ++ [n]) (by omega) (by omega)
      · have hak : attempt = k := by omega
        subst hak
        rw [clientRequestGo, hok]

/-- Retry-loop invariant: if every response in the budget is a well-formed
429, the loop exhausts its iterations and fails with
"Max retries exceeded". -/
theorem clientRequestGo_max_of_429s (resp : Nat → RResp) (rc : Nat)
    (hgood : ∀ i, i < rc → good429 resp i) :
    ∀ (remaining attempt : Nat) (sleeps : List Int),
      attempt + remaining = rc →
      (clientRequestGo resp rc remaining attempt sleeps).1 =
        .apiError "Max retries exceeded" := by
  intro remaining
  induction remaining with
  | zero =>
      intro attempt sleeps he
      rw [clientRequestGo]
  | succ r ih =>
      intro attempt sleeps he
      obtain ⟨hdr, n, h429, hval, hn⟩ := hgood attempt (by omega)
      rw [clientRequestGo]
      simp only [h429, hval]
      rw [if_neg (by omega)]
      exact ih (attempt + 1) (sleeps ++ [n]) (by omega)

/-- C3 as amended (rate-limit handling): a 429 response is honoured with a
sleep and the request is reissued, but the reissue consumes a retry slot —
a request whose first success arrives at index `k < retry_count` after `k`
well-formed 429s still succeeds, while `retry_count` consecutive 429s
exhaust the budget and fail with "Max retries exceeded" (so 429s alone can
cause a max-retries failure, contrary to the claim; see the
counterexample). -/
theorem claim_C3_rate_limit_retry :
    (∀ (resp : Nat → RResp) (rc k v : Nat),
        k < rc → (∀ i, i < k → good429 resp i) → resp k = .ok v →
        (clientRequest resp rc).1 = .ok v)
    ∧ (∀ (resp : Nat → RResp) (rc : Nat),
        (∀ i, i < rc → good429 resp i) →
        (clientRequest resp rc).1 = .apiError "Max retries exceeded") := by
  constructor
  · intro resp rc k v hk hgood hok
    exact clientRequestGo_ok_of_429s resp rc k v hk hgood hok rc 0 []
      (by omega) (by omega)
  · intro resp rc hgood
    exact clientRequestGo_max_of_429s resp rc hgood rc 0 [] (by omega)

/-- Witness for C3 as amended: two 429s then a success succeeds (with
`retry_count = 3`), and three consecutive 429s fail with
"Max retries exceeded". -/
theorem claim_C3_witness :
    (clientRequest (fun i => if i < 2 then RResp.r429 (some "1") else RResp.ok 7) 3).1
      = .ok 7
    ∧ (clientRequest (fun _ => RResp.r429 (some "1")) 3).1
      = .apiError "Max retries exceeded" := by
  constructor
  · exact claim_C3_rate_limit_retry.1 _ 3 2 7 (by omega)
      (fun i hi => ⟨some "1", 1, by simp [hi], by decide, by omega⟩)
      (by norm_num)
  · exact claim_C3_rate_limit_retry.2 _ 3
      (fun i hi => ⟨some "1", 1, rfl, by decide, by omega⟩)

/-!
## Paginator walk lemmas (shared by claims C5, C7 and C10)

`ProgramBookAnalyzer.fetch_all_orders` and `ShopifyOrderFetcher.
fetch_orders` walk pages exactly as `FullSalesAnalyzer.fetch_all_orders`
does (the latter differs only in what it returns on an error page), so two
bridge lemmas let every cursor fact be proved once.
-/

/-- The program-book walker computes the same pair as the full-sales
walker. -/
theorem pbGo_eq_fsGo :
    ∀ (l : List PageResp) (acc : List Nat),
      pbFetchAllOrdersGo l acc = fsFetchAllOrdersGo l acc := by
  intro l
  induction l with
  | nil => intro acc; rfl
  | cons p rest ih =>
      intro acc
      cases p with
      | err => rfl
      | ok orders hasNext =>
          simp only [pbFetchAllOrdersGo, fsFetchAllOrdersGo]
          by_cases he : orders.isEmpty
          · simp [he]
          · cases hasNext <;> simp [he, ih]

/-- The plain order-fetcher walker computes the record component of the
full-sales walker. -/
theorem sofGo_eq_fsGo :
    ∀ (l : List PageResp) (acc : List Nat),
      sofFetchOrdersGo l acc = (fsFetchAllOrdersGo l acc).1 := by
  intro l
  induction l with
  | nil => intro acc; rfl
  | cons p rest ih =>
      intro acc
      cases p with
      | err => rfl
      | ok orders hasNext =>
          simp only [sofFetchOrdersGo, fsFetchAllOrdersGo]
          by_cases he : orders.isEmpty
          · simp [he]
          · cases hasNext <;> simp [he, ih]

/-- Cursor walk over a well-formed page sequence: every page is consumed
and concatenated, and the success flag stays true. -/
theorem fsGo_wf :
    ∀ (resps : List PageResp) (acc : List Nat),
      cuWF resps = true →
      fsFetchAllOrdersGo resps acc =
        (acc ++ resps.flatMap PageResp.records, true) := by
  intro resps
  induction resps with
  | nil =>
      intro acc h
      simp [fsFetchAllOrdersGo]
  | cons p rest ih =>
      intro acc h
      cases p with
      | err =>
          cases rest <;> simp [cuWF] at h
      | ok orders hasNext =>
          cases rest with
          | nil =>
              simp only [cuWF, Bool.or_eq_true] at h
              simp only [fsFetchAllOrdersGo]
              rcases h with h | h
              · rw [if_pos h]
                simp [PageResp.records, List.isEmpty_iff.mp h]
              · by_cases he : orders.isEmpty
                · rw [if_pos he]
                  simp [PageResp.records, List.isEmpty_iff.mp he]
                · rw [if_neg (by simpa using he)]
                  have hn : hasNext = false := by
                    cases hasNext
                    · rfl
                    · simp at h
                  rw [hn]
                  simp [PageResp.records, fsFetchAllOrdersGo]
          | cons r2 rest2 =>
              simp only [cuWF, Bool.and_eq_true] at h
              obtain ⟨⟨h1, h2⟩, h3⟩ := h
              simp only [fsFetchAllOrdersGo]
              rw [if_neg (by simpa using h1), h2]
              rw [ih (acc ++ orders) h3]
              simp [PageResp.records, List.append_assoc]

/-- Cursor walk hitting an error page after a fully-linked nonempty
prefix: the partial prefix is kept and the success flag drops to false,
regardless of what would come after. -/
theorem fsGo_err :
    ∀ (before after : List PageResp) (acc : List Nat),
      cuAllNext before = true →
      fsFetchAllOrdersGo (before ++ .err :: after) acc =
        (acc ++ before.flatMap PageResp.records, false) := by
  intro before
  induction before with
  | nil =>
      intro after acc h
      simp [fsFetchAllOrdersGo]
  | cons p rest ih =>
      intro after acc h
      cases p with
      | err => simp [cuAllNext] at h
      | ok orders hasNext =>
          simp only [cuAllNext, Bool.and_eq_true] at h
          obtain ⟨⟨h1, h2⟩, h3⟩ := h
          simp only [List.cons_append, fsFetchAllOrdersGo]
          rw [if_neg (by simpa using h1), h2, if_pos rfl]
          simpa [PageResp.records, List.append_assoc, List.append_eq]
            using ih after (acc ++ orders) h3

/-- Cursor walk hitting an empty page after a fully-linked nonempty
prefix: pagination stops at the empty page — before its next-link flag is
examined and regardless of the pages after it — keeping the prefix with
the success flag true. -/
theorem fsGo_empty :
    ∀ (before after : List PageResp) (b : Bool) (acc : List Nat),
      cuAllNext before = true →
      fsFetchAllOrdersGo (before ++ .ok [] b :: after) acc =
        (acc ++ before.flatMap PageResp.records, true) := by
  intro before
  induction before with
  | nil =>
      intro after b acc h
      simp [fsFetchAllOrdersGo]
  | cons p rest ih =>
      intro after b acc h
      cases p with
      | err => simp [cuAllNext] at h
      | ok orders hasNext =>
          simp only [cuAllNext, Bool.and_eq_true] at h
          obtain ⟨⟨h1, h2⟩, h3⟩ := h
          simp only [List.cons_append, fsFetchAllOrdersGo]
          rw [if_neg (by simpa using h1), h2, if_pos rfl]
          simpa [PageResp.records, List.append_assoc, List.append_eq]
            using ih after b (acc ++ orders) h3

/-- Amplifier page walk over a well-formed page sequence. -/
theorem amGo_wf :
    ∀ (resps : List ItemsResp) (page : Nat) (acc : List Nat),
      amWF resps page = true →
      amplifierGetAllItemsGo resps page acc =
        .ok (acc ++ resps.flatMap ItemsResp.records) := by
  intro resps
  induction resps with
  | nil =>
      intro page acc h
      simp [amplifierGetAllItemsGo]
  | cons p rest ih =>
      intro page acc h
      cases p with
      | err e =>
          cases rest <;> simp [amWF] at h
      | ok items total_pages =>
          cases rest with
          | nil =>
              simp only [amWF, Bool.or_eq_true] at h
              simp only [amplifierGetAllItemsGo]
              rcases h with h | h
              · rw [if_pos h]
                simp [ItemsResp.records, List.isEmpty_iff.mp h]
              · by_cases he : items.isEmpty
                · rw [if_pos he]
                  simp [ItemsResp.records, List.isEmpty_iff.mp he]
                · rw [if_neg (by simpa using he),
                    if_pos (of_decide_eq_true h)]
                  simp [ItemsResp.records]
          | cons r2 rest2 =>
              simp only [amWF, Bool.and_eq_true, decide_eq_true_eq] at h
              obtain ⟨⟨h1, h2⟩, h3⟩ := h
              simp only [amplifierGetAllItemsGo]
              rw [if_neg (by simpa using h1), if_neg (by omega)]
              rw [ih (page + 1) (acc ++ items) h3]
              simp [ItemsResp.records, List.append_assoc]

/-- Amplifier page walk hitting an error response after a prefix of
nonempty, non-final pages: the raised `AmplifierAPIError` propagates,
discarding the accumulated partial list. -/
theorem amGo_err :
    ∀ (before after : List ItemsResp) (e : String) (page : Nat)
      (acc : List Nat),
      amAllNext before page = true →
      amplifierGetAllItemsGo (before ++ .err e :: after) page acc =
        .error e := by
  intro before
  induction before with
  | nil =>
      intro after e page acc h
      rfl
  | cons p rest ih =>
      intro after e page acc h
      cases p with
      | err e0 => simp [amAllNext] at h
      | ok items total_pages =>
          simp only [amAllNext, Bool.and_eq_true, decide_eq_true_eq] at h
          obtain ⟨⟨h1, h2⟩, h3⟩ := h
          simp only [List.cons_append, amplifierGetAllItemsGo]
          rw [if_neg (by simpa using h1), if_neg (by omega)]
          exact ih after e (page + 1) (acc ++ items) h3

/-- Printful offset walk over a well-formed page sequence. -/
theorem pfGo_wf :
    ∀ (resps : List PfResp) (offset : Nat) (acc : List Nat),
      pfWF resps offset = true →
      printfulGetAllProductsGo resps offset acc =
        acc ++ resps.flatMap PfResp.records := by
  intro resps
  induction resps with
  | nil =>
      intro offset acc h
      simp [printfulGetAllProductsGo]
  | cons p rest ih =>
      intro offset acc h
      obtain ⟨products, total⟩ := p
      cases rest with
      | nil =>
          simp only [pfWF, Bool.or_eq_true] at h
          simp only [printfulGetAllProductsGo]
          rcases h with h | h
          · rw [if_pos h]
            simp [PfResp.records, List.isEmpty_iff.mp h]
          · by_cases he : products.isEmpty
            · rw [if_pos he]
              simp [PfResp.records, List.isEmpty_iff.mp he]
            · rw [if_neg (by simpa using he),
                if_pos (by simpa using h)]
              simp [PfResp.records]
      | cons r2 rest2 =>
          simp only [pfWF, Bool.and_eq_true, decide_eq_true_eq] at h
          obtain ⟨⟨h1, h2⟩, h3⟩ := h
          change (if products.isEmpty then acc
            else if total ≤ offset + 100 then acc ++ products
            else printfulGetAllProductsGo (r2 :: rest2) (offset + 100)
              (acc ++ products)) = _
          rw [if_neg (by simpa using h1), if_neg (by omega)]
          rw [ih (offset + 100) (acc ++ products) h3]
          simp [PfResp.records, List.append_assoc]

/-!
## Claim C5: partial-fetch semantics (corrected)

`FullSalesAnalyzer.fetch_all_orders` and `ProgramBookAnalyzer.
fetch_all_orders` do return (partial list, success flag).  But
`ShopifyOrderFetcher.fetch_orders` returns only the bare partial list (no
flag), and `AmplifierClient.get_all_items` has no error handling at the
pagination layer at all: the `AmplifierAPIError` raised by `_request`
propagates and the accumulated partial list is lost.
-/

/-- Counterexample to C5 as stated: in `AmplifierClient.get_all_items` an
API error on the second page is not converted into a (partial list,
success flag) pair — the exception propagates and the item fetched on
page 1 is discarded. -/
theorem claim_C5_counterexample :
    amplifierGetAllItems [.ok [7] 2, .err "network error"] =
      .error "network error" := by
  rfl

/-- C5 as amended (partial-fetch semantics): on a page-fetch error, the
two analyzers' `fetch_all_orders` abort pagination and return the partial
list accumulated so far paired with success = false (and no exception);
`ShopifyOrderFetcher.fetch_orders` aborts and returns the bare partial
list without any flag; `AmplifierClient.get_all_items` instead lets the
exception propagate, discarding the partial list (see the
counterexample). -/
theorem claim_C5_partial_fetch :
    (∀ (before after : List PageResp),
        cuAllNext before = true →
        fsFetchAllOrders (before ++ .err :: after) =
          (before.flatMap PageResp.records, false))
    ∧ (∀ (before after : List PageResp),
        cuAllNext before = true →
        pbFetchAllOrders (before ++ .err :: after) =
          (before.flatMap PageResp.records, false))
    ∧ (∀ (before after : List PageResp),
        cuAllNext before = true →
        sofFetchOrders (before ++ .err :: after) =
          before.flatMap PageResp.records)
    ∧ (∀ (before after : List ItemsResp) (e : String),
        amAllNext before 1 = true →
        amplifierGetAllItems (before ++ .err e :: after) = .error e) := by
  refine ⟨?_, ?_, ?_, ?_⟩
  · intro before after h
    simpa using fsGo_err before after [] h
  · intro before after h
    unfold pbFetchAllOrders
    rw [pbGo_eq_fsGo]
    simpa using fsGo_err before after [] h
  · intro before after h
    unfold sofFetchOrders
    rw [sofGo_eq_fsGo, fsGo_err before after [] h]
    simp
  · intro before after e h
    exact amGo_err before after e 1 [] h

/-- Witness for C5 as amended: one full page then an error page. -/
theorem claim_C5_witness :
    fsFetchAllOrders [.ok [1, 2] true, .err] = ([1, 2], false)
    ∧ pbFetchAllOrders [.ok [1, 2] true, .err] = ([1, 2], false)
    ∧ sofFetchOrders [.ok [1, 2] true, .err] = [1, 2]
    ∧ amplifierGetAllItems [.ok [1, 2] 3, .err "boom"] = .error "boom" := by
  refine ⟨?_, ?_, ?_, ?_⟩
  · exact (claim_C5_partial_fetch.1 [.ok [1, 2] true] [] (by decide)).trans
      (by decide)
  · exact (claim_C5_partial_fetch.2.1 [.ok [1, 2] true] [] (by decide)).trans
      (by decide)
  · exact (claim_C5_partial_fetch.2.2.1 [.ok [1, 2] true] [] (by decide)).trans
      (by decide)
  · exact claim_C5_partial_fetch.2.2.2 [.ok [1, 2] 3] [] "boom" (by decide)

/-!
## Claim C7: pagination termination and exactness

The paginators are total Lean functions (so they terminate on every finite
page sequence); on every well-formed finite synthetic page sequence — every
page before the last nonempty and linking onwards, the last page closing
the walk — the result is exactly the concatenation of the supplied pages'
records in order.
-/

/-- C7 (pagination termination and exactness): the offset-based
(`PrintfulClient.get_all_products`), page-number-based
(`AmplifierClient.get_all_items`) and cursor-link-based
(`FullSalesAnalyzer.fetch_all_orders`) paginators each return exactly the
concatenation of the supplied pages' records, in original order, with no
duplicates and no drops, for every well-formed finite synthetic page
sequence. -/
theorem claim_C7_pagination_exactness :
    (∀ (resps : List PfResp), pfWF resps 0 = true →
        printfulGetAllProducts resps = resps.flatMap PfResp.records)
    ∧ (∀ (resps : List ItemsResp), amWF resps 1 = true →
        amplifierGetAllItems resps = .ok (resps.flatMap ItemsResp.records))
    ∧ (∀ (resps : List PageResp), cuWF resps = true →
        fsFetchAllOrders resps = (resps.flatMap PageResp.records, true)) := by
  refine ⟨?_, ?_, ?_⟩
  · intro resps h
    simpa using pfGo_wf resps 0 [] h
  · intro resps h
    simpa using amGo_wf resps 1 [] h
  · intro resps h
    simpa using fsGo_wf resps [] h

/-- Witness for C7: three-page sequences for each paginator concatenate
exactly. -/
theorem claim_C7_witness :
    printfulGetAllProducts
        [.ok [1, 2] 250, .ok [3, 4] 250, .ok [5] 250] = [1, 2, 3, 4, 5]
    ∧ amplifierGetAllItems [.ok [1, 2] 3, .ok [3, 4] 3, .ok [5] 3] =
        .ok [1, 2, 3, 4, 5]
    ∧ fsFetchAllOrders [.ok [1, 2] true, .ok [3, 4] true, .ok [5] false] =
        ([1, 2, 3, 4, 5], true) := by
  refine ⟨?_, ?_, ?_⟩
  · exact (claim_C7_pagination_exactness.1
      [.ok [1, 2] 250, .ok [3, 4] 250, .ok [5] 250] (by decide)).trans
      (by decide)
  · exact (claim_C7_pagination_exactness.2.1
      [.ok [1, 2] 3, .ok [3, 4] 3, .ok [5] 3] (by decide)).trans (by decide)
  · exact (claim_C7_pagination_exactness.2.2
      [.ok [1, 2] true, .ok [3, 4] true, .ok [5] false] (by decide)).trans
      (by decide)

/-!
## Claim C10: an empty page terminates cursor pagination immediately
-/

/-- C10 (empty page stops the cursor walk): in all three cursor-link
paginators, a page with zero records terminates pagination before the Link
header is examined — the result is the concatenation of the pages strictly
before the first empty page, for any next-link flag `b` on the empty page
and any pages after it (no further request is issued), with the success
flag still true. -/
theorem claim_C10_empty_page_stops :
    ∀ (before after : List PageResp) (b : Bool),
      cuAllNext before = true →
      fsFetchAllOrders (before ++ .ok [] b :: after) =
          (before.flatMap PageResp.records, true)
      ∧ pbFetchAllOrders (before ++ .ok [] b :: after) =
          (before.flatMap PageResp.records, true)
      ∧ sofFetchOrders (before ++ .ok [] b :: after) =
          before.flatMap PageResp.records := by
  intro before after b h
  refine ⟨?_, ?_, ?_⟩
  · simpa using fsGo_empty before after b [] h
  · unfold pbFetchAllOrders
    rw [pbGo_eq_fsGo]
    simpa using fsGo_empty before after b [] h
  · unfold sofFetchOrders
    rw [sofGo_eq_fsGo, fsGo_empty before after b [] h]
    simp

/-- Witness for C10: one full page, then an empty page that still carries
a next link, then a nonempty page that must never be fetched. -/
theorem claim_C10_witness :
    fsFetchAllOrders [.ok [1, 2] true, .ok [] true, .ok [9] true] =
        ([1, 2], true)
    ∧ pbFetchAllOrders [.ok [1, 2] true, .ok [] true, .ok [9] true] =
        ([1, 2], true)
    ∧ sofFetchOrders [.ok [1, 2] true, .ok [] true, .ok [9] true] = [1, 2] := by
  obtain ⟨h1, h2, h3⟩ :=
    claim_C10_empty_page_stops [.ok [1, 2] true] [.ok [9] true] true (by decide)
  exact ⟨h1.trans (by decide), h2.trans (by decide), h3.trans (by decide)⟩

end Shopify
